import Mathlib

/-!
Verification development for the AI suggestion engine of the ts-tracktitans
railway simulator (`server/simulation/suggestions.go` and
`server/server/hub_suggestions.go`).

The Go code is shallowly embedded: float64 values become exact rationals
(`ℚ`), `time.Time` and `time.Duration` become integer nanosecond counts
(`ℤ`), Go maps become association lists looked up with `List.find?`, and
the two uses of `sort.Slice` (an unstable sort) together with the
iteration over the Go map `blockedBy` (whose order Go does not specify)
are modelled relationally: a recomputation outcome is any list that is a
permutation of the generated candidates and is ordered by the sort's
comparator.

Parts of the simulator that are outside the repository slice under
verification (train kinematics, topology traversal, signal bookkeeping)
are represented as data fields of the state, following the spec's
"Simulation State Reader" interface: each train carries the forward walk
of positions that `Position.Next(DirectionCurrent)` would produce, the
result of `findNextSignal`, and the result of `NextSignalPosition`.
-/

namespace TsSuggest

/-- Nanoseconds in a second (`time.Second`). -/
def nsSecond : ℤ := 1000000000

/-- Nanoseconds in a minute (`time.Minute`). -/
def nsMinute : ℤ := 60000000000

/-- Nanoseconds in an hour (`time.Hour`). -/
def nsHour : ℤ := 3600000000000

/-- `math.MaxFloat64` (the exact integer value of the largest finite
float64), the sentinel used by the distance walks. -/
def maxFloat64 : ℚ := ((179769313486231570814527423731704356798070567525844996598917476803157260780028538760589558632766878171540458953514382464234321326889464182768467546703537516986049910576551282076245490090389328944075868508455133942304583236903222948165808559332123348274797826204144723168738177180919299881250404026184124858368 : ℕ) : ℚ)

/-- Truncation of a rational toward zero, the semantics of Go's
float64-to-int64 conversion used in `time.Duration(x)`. -/
def ratTruncZ (q : ℚ) : ℤ := Int.tdiv q.num (q.den : ℤ)

/-- `Duration.Seconds()`: nanoseconds to (exact) seconds. -/
def durSeconds (d : ℤ) : ℚ := (d : ℚ) / (nsSecond : ℚ)

/-- Go `time.Duration(seconds * float64(time.Second))`. -/
def durOfSeconds (q : ℚ) : ℤ := ratTruncZ (q * (nsSecond : ℚ))

/-- A value of a `map[string]interface{}` action parameter. -/
inductive ParamValue
  | str (s : String)
  | int (i : ℤ)
  | bool (b : Bool)
deriving DecidableEq

/-- `SuggestionAction`: object, action verb, named parameters (the
parameter list is kept in the key order JSON marshalling produces). -/
structure SuggestionAction where
  object : String
  action : String
  params : List (String × ParamValue)
deriving DecidableEq

/-- `SuggestionKind`. -/
inductive SuggestionKind
  | routeActivate
  | routeDeactivate
  | trainProceedWithCaution
  | trainReverse
  | trainSetService
  | signalOverride
deriving DecidableEq

/-- The string constant each `SuggestionKind` stands for. -/
def SuggestionKind.str : SuggestionKind → String
  | .routeActivate => "ROUTE_ACTIVATE"
  | .routeDeactivate => "ROUTE_DEACTIVATE"
  | .trainProceedWithCaution => "TRAIN_PROCEED_WITH_CAUTION"
  | .trainReverse => "TRAIN_REVERSE"
  | .trainSetService => "TRAIN_SET_SERVICE"
  | .signalOverride => "SIGNAL_OVERRIDE"

/-- `Suggestion`. -/
structure Suggestion where
  id : String
  kind : SuggestionKind
  title : String
  reason : String
  score : ℚ
  actions : List SuggestionAction
deriving DecidableEq

/-- `Suggestions`: the snapshot value stored on the simulation. -/
structure Suggestions where
  items : List Suggestion
  generatedAt : ℤ
deriving DecidableEq

/-- `SignalAspect`: name, proceed flag, and the target speeds of its
ordered action list. -/
structure SignalAspect where
  name : String
  meansProceed : Bool
  actionSpeeds : List ℚ
deriving DecidableEq

/-- Track item types distinguished by `currentUtilizationPercent`. -/
inductive ItemType
  | line
  | invisibleLink
  | signal
  | points
  | endItem
  | other
deriving DecidableEq

/-- A `Position`: a track item together with the offset along it. -/
structure Pos where
  item : String
  offset : ℚ
deriving DecidableEq

/-- `TrackItem`; the signal-specific data (`ActiveAspect`,
`SignalType().States`) is carried inline and is meaningful when
`ty = signal`.  A state whose `Aspect` pointer is nil is a `none` entry
of `states`. -/
structure TrackItem where
  tiId : String
  ty : ItemType
  realLength : ℚ
  trackCode : String
  placeCode : Option String
  conflictItemId : Option String
  trainPresent : Bool
  activeAspect : SignalAspect
  states : List (Option SignalAspect)
deriving DecidableEq

/-- `ServiceLine`; a zero scheduled departure time is `none`. -/
structure ServiceLine where
  placeCode : String
  trackCode : String
  scheduledDepartureTime : Option ℤ
  mustStop : Bool
deriving DecidableEq

/-- Train status. -/
inductive TrainStatus
  | inactive
  | running
  | stopped
  | waiting
  | out
  | endOfService
deriving DecidableEq

/-- `Train`.  `walk` is the sequence of positions obtained from
`TrainHead` by iterating `Position.Next(DirectionCurrent)` until the
position is out of the scenery (modelled from the spec: the traversal
itself lives outside the verified slice).  `nextSignalId` is the result
of `findNextSignal`, `nextSignalPos` the result of
`NextSignalPosition` (`none` for the zero `Position{}`).  `nextPlaceIndex`
is `none` for the `NoMorePlace` sentinel, and `serviceLines` is `none`
when `Service()` is nil. -/
structure Train where
  tId : String
  serviceCode : String
  status : TrainStatus
  speed : ℚ
  applicableActionSpeed : ℚ
  typeLength : ℚ
  stoppedTime : ℤ
  minStopTime : ℤ
  nextPlaceIndex : Option ℕ
  serviceLines : Option (List ServiceLine)
  trainHead : Pos
  walk : List Pos
  nextSignalId : Option String
  nextSignalPos : Option Pos
deriving DecidableEq

/-- Modelled from the spec: a train is active iff its status is not
Inactive, Out or EndOfService (`Train.IsActive` lives outside the
verified slice). -/
def Train.isActive (t : Train) : Bool :=
  match t.status with
  | .inactive => false
  | .out => false
  | .endOfService => false
  | _ => true

/-- Route state. -/
inductive RouteState
  | deactivated
  | activated
  | persistent
  | destroying
deriving DecidableEq

/-- `Route`. -/
structure Route where
  rId : String
  positions : List Pos
  state : RouteState
deriving DecidableEq

/-- The options bundle consumed by the engine, plus the simulation
clock (`Options.CurrentTime`, in nanoseconds). -/
structure SimOptions where
  suggestionsEnabled : Bool
  suggestionsIntervalMinutes : ℤ
  suggestMaxItems : ℤ
  suggestPredictiveMaxDistanceM : ℚ
  suggestPredictiveMaxETASeconds : ℤ
  suggestSafetyBufferSeconds : ℤ
  currentTime : ℤ
deriving DecidableEq

/-- The read-only simulation state consumed by one recomputation.
`routesByBeginSignal` is the index from begin-signal id to the routes
starting there; `managers` models the registered `routesManagers`: each
manager maps a route id to the error message its `CanActivate` returns
(no entry = activation allowed).  `signalLibAspects` is
`sim.SignalLib.Aspects`. -/
structure SimState where
  trains : List Train
  routes : List Route
  trackItems : List TrackItem
  routesByBeginSignal : List (String × List Route)
  managers : List (List (String × String))
  signalLibAspects : List (String × SignalAspect)
  options : SimOptions

/-- Key-based lookup standing for a Go map access. -/
def alookup {α : Type} (l : List (String × α)) (k : String) : Option α :=
  (l.find? (fun p => p.1 == k)).map (fun p => p.2)

/-- `sim.TrackItems[id]`. -/
def lookupItem (s : SimState) (id : String) : Option TrackItem :=
  s.trackItems.find? (fun ti => ti.tiId == id)

/-- `sim.Routes[id]`. -/
def lookupRoute (s : SimState) (id : String) : Option Route :=
  s.routes.find? (fun r => r.rId == id)

/-- `e.sim.routesByBeginSignal[sigId]` (a missing key yields the empty
slice). -/
def routesFrom (s : SimState) (sigId : String) : List Route :=
  (alookup s.routesByBeginSignal sigId).getD []

/-- One manager's `CanActivate` verdict for a route: `none` is success. -/
def canActivateErr (m : List (String × String)) (rid : String) : Option String :=
  alookup m rid

end TsSuggest

namespace TsSuggest

/-! ### String helpers mirroring the `strings` and `fmt` calls. -/

/-- Worker for `strings.Split` with a one-character separator. -/
def splitChars (sep : Char) : List Char → List Char → List (List Char)
  | [], acc => [acc.reverse]
  | c :: cs, acc =>
    if c = sep then acc.reverse :: splitChars sep cs []
    else splitChars sep cs (c :: acc)

/-- `strings.Split(s, sep)` for a one-character separator. -/
def goSplit (sep : Char) (s : String) : List String :=
  (splitChars sep s.data []).map String.mk

/-- ASCII case folding of a character (the ids and aspect names the
engine handles are ASCII, where `strings.EqualFold` coincides with
lower-casing both sides). -/
def foldChar (c : Char) : Char := c.toLower

/-- `strings.EqualFold`. -/
def equalFold (a b : String) : Bool :=
  a.data.map foldChar == b.data.map foldChar

/-- Worker for `strings.Contains`: substring search over characters. -/
def goContainsChars (sub : List Char) : List Char → Bool
  | [] => sub.isPrefixOf []
  | c :: cs => sub.isPrefixOf (c :: cs) || goContainsChars sub cs

/-- `strings.Contains`. -/
def goContains (s sub : String) : Bool :=
  goContainsChars sub.data s.data

/-- `strings.ToUpper`. -/
def goToUpper (s : String) : String := String.mk (s.data.map Char.toUpper)

/-- `strings.Trim(s, ": ")`: strip leading and trailing characters of
the cut set. -/
def trimColonSpace (s : String) : String :=
  let cut : Char → Bool := fun c => c = ':' ∨ c = ' '
  String.mk (((s.data.dropWhile cut).reverse.dropWhile cut).reverse)

/-- Two-digit zero padding for clock formatting. -/
def pad2 (n : ℤ) : String :=
  if n < 10 then "0" ++ toString n else toString n

/-- `Time.Format("15:04:05")` of a simulation time (nanoseconds),
reduced to the time of day. -/
def fmtClock (ns : ℤ) : String :=
  let total : ℤ := (ns / nsSecond) % 86400
  pad2 (total / 3600) ++ ":" ++ pad2 ((total / 60) % 60) ++ ":" ++ pad2 (total % 60)

/-- `fmt.Sprintf("%.0f", q)`: round half to even, then print the
integer. -/
def fmtF0 (q : ℚ) : String :=
  let fl : ℤ := ⌊q⌋
  let frac : ℚ := q - (fl : ℚ)
  let r : ℤ :=
    if frac < 1/2 then fl
    else if 1/2 < frac then fl + 1
    else if fl % 2 = 0 then fl else fl + 1
  toString r

/-- `fmt.Sscanf(s, "%d", &x)` with the error ignored, as `mustAtoi`
does: skip leading white space, read an optional sign and a digit run;
on no digits the output stays `0`. -/
def scanDigits : List Char → ℤ → ℤ
  | [], acc => acc
  | c :: cs, acc =>
    if c.isDigit then scanDigits cs (acc * 10 + ((c.toNat : ℤ) - 48))
    else acc

/-- Helper for `mustAtoi`: the parsed integer of the leading `%d` token.
The output stays 0 when nothing matches, and also when the digit run
overflows int64: `strconv.ParseInt`'s range error makes `Sscanf` report
an error and leave the operand unassigned. -/
def sscanInt (s : String) : ℤ :=
  let t := s.data.dropWhile (fun c => c = ' ' ∨ c = '\t' ∨ c = '\n' ∨ c = '\r')
  let v : ℤ :=
    match t with
    | '-' :: rest => if rest.headD 'x' |>.isDigit then -(scanDigits rest 0) else 0
    | '+' :: rest => if rest.headD 'x' |>.isDigit then scanDigits rest 0 else 0
    | _ => scanDigits (t.takeWhile Char.isDigit) 0
  if v < -9223372036854775808 ∨ 9223372036854775807 < v then 0 else v

/-- `mustAtoi`: parse a numeric train id, ignoring scan failures. -/
def mustAtoi (s : String) : ℤ := sscanInt s

/-! ### Geometry, kinematics and the utilization proxy. -/

/-- The shared walk of `distanceToSignal` and `distanceToTrackItemStart`:
follow the forward positions, accumulating `RealLength() − PositionOnTI`
for items of positive length, until the target item is met; if the walk
runs out (the position is out of the scenery) return `math.MaxFloat64`. -/
def distWalk (s : SimState) (target : String) : List Pos → ℚ → ℚ
  | [], _ => maxFloat64
  | p :: rest, acc =>
    if p.item = target then acc
    else
      let rl : ℚ := ((lookupItem s p.item).map TrackItem.realLength).getD 0
      distWalk s target rest (if 0 < rl then acc + (rl - p.offset) else acc)

/-- `distanceToSignal`. -/
def distanceToSignal (s : SimState) (t : Train) (sigId : String) : ℚ :=
  distWalk s sigId t.walk 0

/-- `distanceToTrackItemStart`. -/
def distanceToTrackItemStart (s : SimState) (t : Train) (tiId : String) : ℚ :=
  distWalk s tiId t.walk 0

/-- `estimateTimeToReach` (result in nanoseconds, as `time.Duration`). -/
def estimateTimeToReach (t : Train) (distance : ℚ) : ℤ :=
  if t.speed ≤ 0 then nsHour
  else
    let avgSpeed : ℚ :=
      if t.applicableActionSpeed < t.speed then (t.speed + t.applicableActionSpeed) / 2
      else t.speed
    let avgSpeed : ℚ := if avgSpeed ≤ 0 then 1/2 else avgSpeed
    durOfSeconds (distance / avgSpeed)

/-- `currentUtilizationPercent`. -/
def currentUtilizationPercent (s : SimState) : ℚ :=
  let counted := s.trackItems.filter (fun ti =>
    match ti.ty with
    | .line => true
    | .invisibleLink => true
    | .signal => true
    | .points => true
    | _ => false)
  let total := counted.length
  let occupied := (counted.filter (fun ti => ti.trainPresent)).length
  if total = 0 then 0 else (occupied : ℚ) * 100 / (total : ℚ)

/-- `findProceedAspectPreferCaution`: among the signal's states, the
proceed aspect of minimal representative speed (the first action's
target speed, `math.MaxFloat64` when there is none). -/
def findProceedAspectPreferCaution (sig : TrackItem) : Option SignalAspect :=
  let step := fun (best : Option SignalAspect × ℚ) (st : Option SignalAspect) =>
    match st with
    | none => best
    | some asp =>
      if !asp.meansProceed then best
      else
        let speed : ℚ := asp.actionSpeeds.headD maxFloat64
        if speed < best.2 then (some asp, speed) else best
  (sig.states.foldl step (none, maxFloat64)).1

/-- `parseConflictingRouteID`: scan the whitespace-split words for
"conflicting route" (case-insensitively) and return the trimmed next
word; empty string when absent. -/
def findConflictTok : List String → String
  | a :: b :: c :: rest =>
    if equalFold a ("conflicting") && equalFold b ("route") then trimColonSpace c
    else findConflictTok (b :: c :: rest)
  | _ => ""

/-- `parseConflictingRouteID`. -/
def parseConflictingRouteID (msg : String) : String :=
  findConflictTok (goSplit ' ' msg)

/-- `routeHasAnyTrain`. -/
def routeHasAnyTrain (s : SimState) (r : Route) : Bool :=
  r.positions.any (fun pos =>
    (((lookupItem s pos.item).map TrackItem.trainPresent).getD false))

/-- `routeTouchesPlace`. -/
def routeTouchesPlace (s : SimState) (r : Route) (placeCode : String) : Bool :=
  r.positions.any (fun pos =>
    match (lookupItem s pos.item).bind TrackItem.placeCode with
    | some pc => pc == placeCode
    | none => false)

/-- `routeRespectsTrackCodeWithinPlace`. -/
def routeRespectsTrackCodeWithinPlace (s : SimState) (r : Route)
    (placeCode trackCode : String) : Bool :=
  r.positions.all (fun pos =>
    match lookupItem s pos.item with
    | none => true
    | some ti =>
      match ti.placeCode with
      | none => true
      | some pc =>
        if pc ≠ placeCode then true
        else ti.trackCode = "" ∨ ti.trackCode = trackCode)

/-- `nextMustStopLine`. -/
def nextMustStopLine (t : Train) : Option ServiceLine :=
  match t.serviceLines, t.nextPlaceIndex with
  | some lines, some idx =>
    let start := if t.status = .stopped then idx + 1 else idx
    (lines.drop start).find? (fun sl => sl.mustStop)
  | _, _ => none

/-- `intervalsOverlap`. -/
def intervalsOverlap (aStart aEnd bStart bEnd : ℤ) : Bool :=
  aStart ≤ bEnd ∧ bStart ≤ aEnd

end TsSuggest

namespace TsSuggest

/-! ### Safety predicates. -/

/-- The nearest-other-train scan of `predictsCrossingConflictForItem`:
fold over `sim.Trains`, skipping the train itself (pointer identity in
Go; value identity here, which coincides on states with distinct
trains) and inactive trains, keeping the strictly smallest forward
distance to the target item. -/
def nearestOther (s : SimState) (t : Train) (targetId : String) :
    Option Train × ℚ :=
  s.trains.foldl
    (fun best ot =>
      if ot = t ∨ !ot.isActive then best
      else
        let d := distanceToTrackItemStart s ot targetId
        if d < best.2 then (some ot, d) else best)
    (none, maxFloat64)

/-- The analogous scan of `predictsHeadOnConflictForItem`, which also
skips other trains whose distance is `math.MaxFloat64`. -/
def nearestOtherFinite (s : SimState) (t : Train) (targetId : String) :
    Option Train × ℚ :=
  s.trains.foldl
    (fun best ot =>
      if ot = t ∨ !ot.isActive then best
      else
        let d := distanceToTrackItemStart s ot targetId
        if d = maxFloat64 then best
        else if d < best.2 then (some ot, d) else best)
    (none, maxFloat64)

/-- The clamped clearance speed (`ApplicableAction().Speed`, floored at
0.5 when non-positive). -/
def clearanceSpeed (t : Train) : ℚ :=
  if t.applicableActionSpeed ≤ 0 then 1/2 else t.applicableActionSpeed

/-- The effective safety buffer (`SuggestSafetyBufferSeconds`, default
5), in nanoseconds. -/
def bufferNs (s : SimState) : ℤ :=
  (if s.options.suggestSafetyBufferSeconds ≤ 0 then 5
   else s.options.suggestSafetyBufferSeconds) * nsSecond

/-- `predictsCrossingConflictForItem` (the reason string is discarded by
every caller). -/
def predictsCrossingConflictForItem (s : SimState) (t : Train)
    (ti : TrackItem) : Bool :=
  match ti.conflictItemId.bind (lookupItem s) with
  | none => false
  | some conflict =>
    if conflict.trainPresent then true
    else
      match nearestOther s t conflict.tiId with
      | (none, _) => false
      | (some other, nearest) =>
        if nearest = maxFloat64 then false
        else
          let myDist := distanceToTrackItemStart s t ti.tiId
          if myDist = maxFloat64 then false
          else
            let myETA := estimateTimeToReach t myDist
            let otherETA := estimateTimeToReach other nearest
            let myClear := durOfSeconds ((t.typeLength + ti.realLength) / clearanceSpeed t)
            let otherClear :=
              durOfSeconds ((other.typeLength + conflict.realLength) / clearanceSpeed other)
            let buffer := bufferNs s
            intervalsOverlap myETA (myETA + myClear + buffer) otherETA
              (otherETA + otherClear + buffer)

/-- `predictsHeadOnConflictForItem`. -/
def predictsHeadOnConflictForItem (s : SimState) (t : Train)
    (ti : TrackItem) : Bool :=
  let myDist := distanceToTrackItemStart s t ti.tiId
  if myDist = maxFloat64 then false
  else
    let myETA := estimateTimeToReach t myDist
    let myClear := durOfSeconds ((t.typeLength + ti.realLength) / clearanceSpeed t)
    match nearestOtherFinite s t ti.tiId with
    | (none, _) => false
    | (some other, nearest) =>
      let otherETA := estimateTimeToReach other nearest
      let otherClear :=
        durOfSeconds ((other.typeLength + ti.realLength) / clearanceSpeed other)
      let buffer := bufferNs s
      intervalsOverlap myETA (myETA + myClear + buffer) otherETA
        (otherETA + otherClear + buffer)

/-- `predictsCrossingConflictOnRoute`: positions 1.. of the route. -/
def predictsCrossingConflictOnRoute (s : SimState) (t : Train) (r : Route) : Bool :=
  (r.positions.drop 1).any (fun pos =>
    match lookupItem s pos.item with
    | some ti => predictsCrossingConflictForItem s t ti
    | none => false)

/-- `predictsHeadOnConflictOnRoute`. -/
def predictsHeadOnConflictOnRoute (s : SimState) (t : Train) (r : Route) : Bool :=
  (r.positions.drop 1).any (fun pos =>
    match lookupItem s pos.item with
    | some ti => predictsHeadOnConflictForItem s t ti
    | none => false)

/-- The positions scanned by the `for pos := t.TrainHead; !pos.Equals(to)`
loops: the walk's prefix strictly before `to`.  (When `to` is not ahead
of the train the Go loop does not terminate and produces no snapshot;
the model scans the whole finite walk instead.) -/
def pathPositionsTo (t : Train) (tgt : Pos) : List Pos :=
  t.walk.takeWhile (fun p => p ≠ tgt)

/-- The block-clear scan shared by generators 2 and 4: no train present
on the path up to `to` (exclusive), ignoring the head's own item. -/
def blockClearTo (s : SimState) (t : Train) (tgt : Pos) : Bool :=
  (pathPositionsTo t tgt).all (fun p =>
    if p.item = t.trainHead.item then true
    else !(((lookupItem s p.item).map TrackItem.trainPresent).getD false))

/-- `predictsCrossingConflictAlongPath`. -/
def predictsCrossingConflictAlongPath (s : SimState) (t : Train) (tgt : Pos) : Bool :=
  (pathPositionsTo t tgt).any (fun p =>
    if p.item = t.trainHead.item then false
    else
      match lookupItem s p.item with
      | some ti => predictsCrossingConflictForItem s t ti
      | none => false)

/-- `predictsHeadOnConflictAlongPath`. -/
def predictsHeadOnConflictAlongPath (s : SimState) (t : Train) (tgt : Pos) : Bool :=
  (pathPositionsTo t tgt).any (fun p =>
    if p.item = t.trainHead.item then false
    else
      match lookupItem s p.item with
      | some ti => predictsHeadOnConflictForItem s t ti
      | none => false)

/-! ### Candidate generators. -/

/-- All registered route managers allow activating `r`. -/
def allManagersAllow (s : SimState) (r : Route) : Bool :=
  s.managers.all (fun m => (canActivateErr m r.rId).isNone)

/-- The occupancy scan of generators 1 and 3: some position 1.. of the
route, other than the train head's item, has a train present. -/
def routeOccupiedAhead (s : SimState) (thiId : String) (r : Route) : Bool :=
  (r.positions.drop 1).any (fun pos =>
    if pos.item = thiId then false
    else ((lookupItem s pos.item).map TrackItem.trainPresent).getD false)

/-- The suggestion value generator 1 emits for train `t` and route
`r`. -/
def departureSugg (s : SimState) (util : ℚ) (t : Train) (thi : TrackItem)
    (line : ServiceLine) (dep : ℤ) (r : Route) : Suggestion :=
  let delayMin : ℚ := ((Int.tdiv (s.options.currentTime - dep) nsMinute) : ℚ)
  let score0 : ℚ := 10 * delayMin + 1
  let score1 : ℚ := if thi.trackCode = line.trackCode then score0 + 2 else score0
  let score : ℚ := if util < 50 then score1 + (50 - util) / 10 else score1
  { id := "ROUTE_ACTIVATE:" ++ t.tId ++ ":" ++ r.rId,
    kind := .routeActivate,
    title := "Set route " ++ r.rId ++ " to depart train " ++ t.serviceCode,
    reason := "Scheduled departure was " ++ fmtClock dep ++
      ", minimum stop satisfied. No conflicts detected.",
    score := score,
    actions := [SuggestionAction.mk ("route") ("activate")
      [("id", .str r.rId), ("persistent", .bool false)]] }

/-- The per-route admission chain of generator 1. -/
def departureEmit (s : SimState) (util : ℚ) (t : Train) (thi : TrackItem)
    (line : ServiceLine) (dep : ℤ) (r : Route) : Option Suggestion :=
  if !allManagersAllow s r then none
  else if routeOccupiedAhead s t.trainHead.item r then none
  else if predictsCrossingConflictOnRoute s t r then none
  else if predictsHeadOnConflictOnRoute s t r then none
  else if line.trackCode ≠ "" ∧ line.placeCode ≠ "" ∧
      !routeRespectsTrackCodeWithinPlace s r line.placeCode line.trackCode
  then none
  else some (departureSugg s util t thi line dep r)

/-- Generator 1 (departure route activation), for one train. -/
def departureForTrain (s : SimState) (util : ℚ) (t : Train) : List Suggestion :=
  if !t.isActive then []
  else if t.status ≠ .stopped then []
  else
    match lookupItem s t.trainHead.item with
    | none => []
    | some thi =>
      if thi.placeCode = none then []
      else
        match t.serviceLines, t.nextPlaceIndex with
        | some lines, some idx =>
          match lines[idx]? with
          | none => []
          | some line =>
            match line.scheduledDepartureTime with
            | none => []
            | some dep =>
              if s.options.currentTime - dep < 0 then []
              else if t.stoppedTime < t.minStopTime then []
              else
                match t.nextSignalId with
                | none => []
                | some sigId =>
                  (routesFrom s sigId).filterMap (departureEmit s util t thi line dep)
        | _, _ => []

/-- The per-route admission test of generator 1b (predictive
activation). -/
def predictiveRouteOK (s : SimState) (t : Train) (r : Route) : Bool :=
  allManagersAllow s r &&
  !((r.positions.drop 1).any (fun pos =>
      ((lookupItem s pos.item).map TrackItem.trainPresent).getD false)) &&
  !predictsCrossingConflictOnRoute s t r &&
  !predictsHeadOnConflictOnRoute s t r &&
  (match nextMustStopLine t with
   | some nsl =>
     if nsl.placeCode ≠ "" ∧ nsl.trackCode ≠ "" then
       !routeTouchesPlace s r nsl.placeCode ||
         routeRespectsTrackCodeWithinPlace s r nsl.placeCode nsl.trackCode
     else true
   | none => true)

/-- The suggestion value generator 1b emits. -/
def predictiveSugg (t : Train) (sigId : String) (timeToSignal : ℤ) (r : Route) : Suggestion :=
  let score : ℚ := 15 + (60 - durSeconds timeToSignal) / 10
  { id := "ROUTE_ACTIVATE:" ++ t.tId ++ ":" ++ r.rId ++ ":predictive",
    kind := .routeActivate,
    title := "Proactively set route " ++ r.rId ++ " for approaching train " ++
      t.serviceCode,
    reason := "Train " ++ t.serviceCode ++ " approaching signal " ++ sigId ++
      " in ~" ++ fmtF0 (durSeconds timeToSignal) ++
      "s. Proactive route setting prevents stop.",
    score := score,
    actions := [SuggestionAction.mk ("route") ("activate")
      [("id", .str r.rId), ("persistent", .bool false)]] }

/-- Generator 1b (predictive route activation), for one train.  The
source breaks out of the route loop after the first emission, so the
result has at most one element. -/
def predictiveForTrain (s : SimState) (t : Train) : List Suggestion :=
  if !t.isActive ∨ t.status ≠ .running then []
  else
    match t.nextSignalId with
    | none => []
    | some sigId =>
      if (if s.options.suggestPredictiveMaxDistanceM ≤ 0 then (1000 : ℚ)
          else s.options.suggestPredictiveMaxDistanceM) < distanceToSignal s t sigId then []
      else if (if s.options.suggestPredictiveMaxETASeconds ≤ 0 then (60 : ℤ)
          else s.options.suggestPredictiveMaxETASeconds) * nsSecond <
            estimateTimeToReach t (distanceToSignal s t sigId) then []
      else
        match lookupItem s sigId with
        | none => []
        | some sigItem =>
          if sigItem.activeAspect.meansProceed then []
          else
            match (routesFrom s sigId).find? (predictiveRouteOK s t) with
            | none => []
            | some r =>
              [predictiveSugg t sigId (estimateTimeToReach t (distanceToSignal s t sigId)) r]

/-- The late-departure bonus of generator 2. -/
def proceedBonus (s : SimState) (t : Train) : ℚ :=
  match t.serviceLines, t.nextPlaceIndex with
  | some lines, some idx =>
    match lines[idx]? with
    | some line =>
      match line.scheduledDepartureTime with
      | some dep =>
        let delayMin : ℚ := ((Int.tdiv (s.options.currentTime - dep) nsMinute) : ℚ)
        if 0 < delayMin then delayMin else 0
      | none => 0
    | none => 0
  | _, _ => 0

/-- The suggestion value generator 2 emits. -/
def proceedSugg (s : SimState) (util : ℚ) (t : Train) (sig : TrackItem) : Suggestion :=
  let score0 : ℚ := 5 + proceedBonus s t
  let score : ℚ := if 60 < util then score0 + (util - 60) / 12 else score0
  { id := "TRAIN_PROCEED_WITH_CAUTION:" ++ t.tId,
    kind := .trainProceedWithCaution,
    title := "Proceed with caution for train " ++ t.serviceCode ++ " to next signal",
    reason := "Signal " ++ sig.tiId ++ " at STOP but block to next signal appears clear.",
    score := score,
    actions := [SuggestionAction.mk ("train") ("proceed")
      [("id", .int (mustAtoi t.tId))]] }

/-- Generator 2 (proceed with caution), for one train. -/
def proceedForTrain (s : SimState) (util : ℚ) (t : Train) : List Suggestion :=
  if !t.isActive ∨ t.speed ≠ 0 then []
  else
    match t.nextSignalPos with
    | none => []
    | some nsp =>
      match lookupItem s nsp.item with
      | none => []
      | some sig =>
        if sig.ty ≠ .signal then []
        else if sig.activeAspect.meansProceed then []
        else if !blockClearTo s t nsp then []
        else if predictsCrossingConflictAlongPath s t nsp then []
        else if predictsHeadOnConflictAlongPath s t nsp then []
        else [proceedSugg s util t sig]

/-- The readiness test of generator 3 (same preconditions as the
departure generator, without the place requirement). -/
def isReadyTrain (s : SimState) (t : Train) : Bool :=
  t.isActive && t.status = .stopped &&
  (match t.serviceLines, t.nextPlaceIndex with
   | some lines, some idx =>
     match lines[idx]? with
     | some line =>
       match line.scheduledDepartureTime with
       | some dep =>
         !(s.options.currentTime - dep < 0) && !(t.stoppedTime < t.minStopTime)
       | none => false
     | none => false
   | _, _ => false)

/-- `readyTrains` of generator 3. -/
def readyTrains (s : SimState) : List Train :=
  s.trains.filter (isReadyTrain s)

/-- For a ready train, the first candidate route that is unoccupied and
whose activation is vetoed by a parseable "conflicting route" error
naming a persistent, train-free route; yields that blocking route's id. -/
def blockingRouteOf (s : SimState) (t : Train) : Option String :=
  match t.nextSignalId with
  | none => none
  | some sigId =>
    (routesFrom s sigId).findSome? (fun r =>
      if routeOccupiedAhead s t.trainHead.item r then none
      else
        match
          s.managers.findSome? (fun m =>
            (canActivateErr m r.rId).bind (fun msg =>
              let cid := parseConflictingRouteID msg
              if cid = "" then none else some cid)) with
        | none => none
        | some cid =>
          match lookupRoute s cid with
          | none => none
          | some rp =>
            if rp.state ≠ .persistent then none
            else if routeHasAnyTrain s rp then none
            else some rp.rId)

/-- One step of building the `blockedBy` map: append the train id to the
blocking route's entry, inserting the key on first sight. -/
def addBlocked (m : List (String × List String)) (k tid : String) :
    List (String × List String) :=
  if m.any (fun p => p.1 == k) then
    m.map (fun p => if p.1 == k then (p.1, p.2 ++ [tid]) else p)
  else m ++ [(k, [tid])]

/-- The `blockedBy` map (route id → blocked train ids), in insertion
order. -/
def blockedBy (s : SimState) : List (String × List String) :=
  (readyTrains s).foldl
    (fun m t =>
      match blockingRouteOf s t with
      | some k => addBlocked m k t.tId
      | none => m)
    []

/-- The key set of `blockedBy`. -/
def blockedKeys (s : SimState) : List String := (blockedBy s).map (fun p => p.1)

/-- The `bes` slice produced by ranging over the `blockedBy` map in the
(unspecified) iteration order `ord`. -/
def besOf (s : SimState) (ord : List String) : List (String × ℕ) :=
  ord.filterMap (fun k => (alookup (blockedBy s) k).map (fun l => (k, l.length)))

/-- The suggestion value generator 3 emits for one `bes` entry. -/
def deactSugg (util : ℚ) (r : Route) (count : ℕ) : Suggestion :=
  let score0 : ℚ := 8 + 3 * (count : ℚ)
  let score : ℚ := if 50 < util then score0 + (util - 50) / 8 else score0
  { id := "ROUTE_DEACTIVATE:" ++ r.rId,
    kind := .routeDeactivate,
    title := "Deactivate persistent route " ++ r.rId ++ " to unblock " ++
      toString count ++ " departure(s)",
    reason := "Route blocks " ++ toString count ++ " ready departure(s) via interlocking.",
    score := score,
    actions := [SuggestionAction.mk ("route") ("deactivate")
      [("id", .str r.rId)]] }

/-- Emission step of generator 3 (the route lookup cannot fail, since
the keys of `blockedBy` come from `sim.Routes`). -/
def deactEmit (s : SimState) (util : ℚ) (be : String × ℕ) : Option Suggestion :=
  match lookupRoute s be.1 with
  | none => none
  | some r => some (deactSugg util r be.2)

/-- Generator 3 (persistent-route deactivation): the top five entries of
the count-sorted `bes` slice. -/
def deactCandidates (s : SimState) (util : ℚ) (besSorted : List (String × ℕ)) :
    List Suggestion :=
  (besSorted.take 5).filterMap (deactEmit s util)

/-- The HTTP-friendly color of an aspect name (CLEAR maps to GREEN, then
CAUTION to YELLOW). -/
def overrideColor (name : String) : String :=
  let color0 := goToUpper name
  let color1 := if goContains color0 ("CLEAR") then "GREEN" else color0
  if goContains color1 ("CAUTION") then "YELLOW" else color1

/-- The suggestion value generator 4 emits. -/
def overrideSugg (util : ℚ) (t : Train) (sig : TrackItem) (asp : SignalAspect) : Suggestion :=
  let score0 : ℚ := 7
  let score : ℚ := if 60 < util then score0 + (util - 60) / 8 else score0
  { id := "SIGNAL_OVERRIDE:" ++ sig.tiId ++ ":" ++ asp.name,
    kind := .signalOverride,
    title := "Set signal " ++ sig.tiId ++ " to " ++ asp.name ++
      " to allow cautious depart of train " ++ t.serviceCode,
    reason := "Block to next signal appears clear; temporary manual override to " ++
      asp.name ++ " would expedite departure.",
    score := score,
    actions := [SuggestionAction.mk ("signal") ("status")
      [("id", .str sig.tiId), ("newStatus", .str (overrideColor asp.name))]] }

/-- Generator 4 (conservative signal override), for one train. -/
def overrideForTrain (s : SimState) (util : ℚ) (t : Train) : List Suggestion :=
  if !t.isActive ∨ t.speed ≠ 0 then []
  else
    match t.nextSignalPos with
    | none => []
    | some nsp =>
      match lookupItem s nsp.item with
      | none => []
      | some sig =>
        if sig.ty ≠ .signal then []
        else if sig.activeAspect.meansProceed then []
        else if !blockClearTo s t nsp then []
        else
          match findProceedAspectPreferCaution sig with
          | none => []
          | some asp => [overrideSugg util t sig asp]

/-- The concatenated candidate list of `computeSuggestions`, given the
count-sorted `bes` slice chosen for generator 3. -/
def candidatesWith (s : SimState) (besSorted : List (String × ℕ)) : List Suggestion :=
  s.trains.flatMap (departureForTrain s (currentUtilizationPercent s)) ++
    s.trains.flatMap (predictiveForTrain s) ++
    s.trains.flatMap (proceedForTrain s (currentUtilizationPercent s)) ++
    deactCandidates s (currentUtilizationPercent s) besSorted ++
    s.trains.flatMap (overrideForTrain s (currentUtilizationPercent s))

/-- Postcondition of `sort.Slice(candidates, score >)`: scores are
non-increasing.  (Go's `sort.Slice` is unstable, so only sortedness and
the permutation property are guaranteed.) -/
def ScoresSorted (l : List Suggestion) : Prop :=
  l.Pairwise (fun a b => b.score ≤ a.score)

/-- Postcondition of `sort.Slice(bes, count >)`. -/
def CountsSorted (l : List (String × ℕ)) : Prop :=
  l.Pairwise (fun a b => b.2 ≤ a.2)

/-- The effective item cap (`SuggestMaxItems`, default 50). -/
def effMaxItems (s : SimState) : ℕ :=
  if s.options.suggestMaxItems ≤ 0 then 50 else s.options.suggestMaxItems.toNat

/-- The rejection filter applied by `RecomputeIfDue` and `Recompute`:
drop items whose id maps to a strictly future simulation time. -/
def filterRejected (rej : List (String × ℤ)) (now : ℤ) (items : List Suggestion) :
    List Suggestion :=
  items.filter (fun it =>
    match alookup rej it.id with
    | some u => !(now < u)
    | none => true)

/-- One possible outcome of a recomputation (`computeSuggestions`
followed by the rejection filter) under rejection map `rej`, where
`ord` is the order in which Go's map iteration enumerates the
`blockedBy` keys: some sorted permutation of the `bes` slice and some
score-sorted permutation of the candidates produce the snapshot.  Go's
map iteration order is unspecified and randomized, so any `ord` that
permutes the key set describes a real execution. -/
def Recomputes (s : SimState) (rej : List (String × ℤ)) (ord : List String)
    (snap : Suggestions) : Prop :=
  ord.Perm (blockedKeys s) ∧
  ∃ besSorted out,
    besSorted.Perm (besOf s ord) ∧ CountsSorted besSorted ∧
    out.Perm (candidatesWith s besSorted) ∧ ScoresSorted out ∧
    snap = { items := filterRejected rej s.options.currentTime (out.take (effMaxItems s)),
             generatedAt := s.options.currentTime }

/-! ### Reject and Accept. -/

/-- Go map store `m[k] = v`. -/
def assocInsert (l : List (String × ℤ)) (k : String) (v : ℤ) : List (String × ℤ) :=
  if l.any (fun p => p.1 == k) then
    l.map (fun p => if p.1 == k then (p.1, v) else p)
  else l ++ [(k, v)]

/-- `Reject(id, minutes)` followed by `RejectUntil`: store
`now + minutes·minute` (minutes defaulting to 5 when non-positive). -/
def rejectUpdate (rej : List (String × ℤ)) (id : String) (minutes : ℤ) (now : ℤ) :
    List (String × ℤ) :=
  let m := if minutes ≤ 0 then 5 else minutes
  assocInsert rej id (now + m * nsMinute)

/-- The state-mutating host operations the accept path can invoke. -/
inductive HostCall
  | activateRoute (id : String) (persistent : Bool)
  | deactivateRoute (id : String)
  | proceedWithCaution (trainIndex : ℕ)
  | setManualAspect (signalId : String) (aspect : Option SignalAspect)
deriving DecidableEq

/-- The outcome of `Accept`: a structured error returned before any
host operation, or the single host call it dispatches (whose own error,
if any, Go propagates verbatim). -/
inductive AcceptOutcome
  | err (msg : String)
  | call (c : HostCall)
deriving DecidableEq

/-- The engine state (`SuggestionEngine` plus the snapshot the
simulation holds). -/
structure EngineState where
  sim : SimState
  rejectedUntil : List (String × ℤ)
  lastComputedAt : Option ℤ
  snapshot : Option Suggestions

/-- `Accept`. -/
def acceptSuggestion (e : EngineState) (id : String) : AcceptOutcome :=
  match goSplit ':' id with
  | [] => .err ("invalid suggestion id")
  | kind :: rest =>
    let parts := kind :: rest
    if kind = "ROUTE_ACTIVATE" then
      if parts.length < 3 then .err ("invalid route activation id")
      else
        match parts[2]? with
        | none => .err ("invalid route activation id")
        | some rid =>
          match lookupRoute e.sim rid with
          | none => .err ("unknown route: " ++ rid)
          | some rte => .call (.activateRoute rte.rId false)
    else if kind = "ROUTE_DEACTIVATE" then
      if parts.length < 2 then .err ("invalid route deactivation id")
      else
        match parts[1]? with
        | none => .err ("invalid route deactivation id")
        | some rid =>
          match lookupRoute e.sim rid with
          | none => .err ("unknown route: " ++ rid)
          | some rte => .call (.deactivateRoute rte.rId)
    else if kind = "TRAIN_PROCEED_WITH_CAUTION" then
      if parts.length < 2 then .err ("invalid proceed id")
      else
        match parts[1]? with
        | none => .err ("invalid proceed id")
        | some tidStr =>
          let tid := mustAtoi tidStr
          if tid < 0 ∨ (e.sim.trains.length : ℤ) ≤ tid then
            .err ("unknown train: " ++ toString tid)
          else .call (.proceedWithCaution tid.toNat)
    else if kind = "SIGNAL_OVERRIDE" then
      if parts.length < 3 then .err ("invalid signal override id")
      else
        match parts[1]?, parts[2]? with
        | some sigId, some aspectName =>
          match lookupItem e.sim sigId with
          | none => .err ("unknown signal: " ++ sigId)
          | some sigRaw =>
            if sigRaw.ty ≠ .signal then .err ("not a signal: " ++ sigId)
            else if equalFold aspectName ("DEFAULT") then
              .call (.setManualAspect sigRaw.tiId none)
            else
              match alookup e.sim.signalLibAspects aspectName with
              | some a => .call (.setManualAspect sigRaw.tiId (some a))
              | none =>
                .call (.setManualAspect sigRaw.tiId (findProceedAspectPreferCaution sigRaw))
        | _, _ => .err ("invalid signal override id")
    else .err ("unsupported suggestion kind: " ++ kind)

end TsSuggest

namespace TsSuggest

/-! ### Well-formedness, auxiliary definitions, and concrete scenario
states used by the verification below. -/

/-- Well-formedness of a simulation state, as the simulator's loaders
guarantee it: train ids are distinct and colon-free, route ids are
colon-free, each begin-signal index entry lists routes with distinct
colon-free ids, and track item ids are colon-free.  (Ids are numeric
strings or scenery ids in the shipped simulations.) -/
def WFState (s : SimState) : Prop :=
  (s.trains.map Train.tId).Nodup ∧
  (∀ t ∈ s.trains, ':' ∉ t.tId.data) ∧
  (∀ r ∈ s.routes, ':' ∉ r.rId.data) ∧
  (∀ p ∈ s.routesByBeginSignal, (p.2.map Route.rId).Nodup ∧ ∀ r ∈ p.2, ':' ∉ r.rId.data) ∧
  (∀ ti ∈ s.trackItems, ':' ∉ ti.tiId.data)

/-- The amended uniqueness property: any two snapshot items either have
different ids or are both signal overrides. -/
def DistinctIdsExceptOverride (l : List Suggestion) : Prop :=
  l.Pairwise (fun a b => a.id ≠ b.id ∨ (a.kind = .signalOverride ∧ b.kind = .signalOverride))

/-- An item is a predictive route-activation suggestion for train `t`:
its id splits as `ROUTE_ACTIVATE:<t>:<route>:predictive`. -/
def isPredFor (t : Train) (x : Suggestion) : Bool :=
  match goSplit ':' x.id with
  | [k, a, _, c] => k == "ROUTE_ACTIVATE" && a == t.tId && c == "predictive"
  | _ => false

/-- Insertion into a list sorted by count descending (a reference
stable sort used to state canonical-form hypotheses). -/
def insertByCount (x : String × ℕ) : List (String × ℕ) → List (String × ℕ)
  | [] => [x]
  | y :: l => if y.2 ≤ x.2 then x :: y :: l else y :: insertByCount x l

/-- Reference sort of the `bes` slice by count descending. -/
def sortByCount (l : List (String × ℕ)) : List (String × ℕ) :=
  l.foldr insertByCount []

/-- The canonical count-sorted `bes` slice of a state. -/
def besCanon (s : SimState) : List (String × ℕ) :=
  sortByCount (besOf s (blockedKeys s))

/-- The ETA function exactly as claim C4 words it: zero speed yields one
hour; otherwise the average of current speed and a strictly lower
braking target, clamped to at least 0.5 m/s, divides the distance. -/
def estimateETA_claimed (t : Train) (distance : ℚ) : ℤ :=
  if t.speed = 0 then nsHour
  else
    let avg : ℚ :=
      if t.applicableActionSpeed < t.speed then (t.speed + t.applicableActionSpeed) / 2
      else t.speed
    durOfSeconds (distance / max avg (1/2))

/-- The ETA function as amended: non-positive speed yields one hour;
otherwise the average of current speed and a strictly lower braking
target divides the distance, with 0.5 m/s substituted only when that
average is non-positive. -/
def estimateETA_amended (t : Train) (distance : ℚ) : ℤ :=
  if t.speed ≤ 0 then nsHour
  else
    let avg : ℚ :=
      if t.applicableActionSpeed < t.speed then (t.speed + t.applicableActionSpeed) / 2
      else t.speed
    durOfSeconds (distance / (if avg ≤ 0 then 1/2 else avg))

/-- Aspect resolution exactly as claim C9 words it: case-insensitive
name matching, DEFAULT clears, unknown names fall back to the
lowest-speed proceed aspect. -/
def resolveAspectClaimed (s : SimState) (sig : TrackItem) (name : String) :
    Option SignalAspect :=
  if equalFold name ("DEFAULT") then none
  else
    match s.signalLibAspects.find? (fun p => equalFold p.1 name) with
    | some p => some p.2
    | none => findProceedAspectPreferCaution sig

/-! #### Concrete scenario states. -/

/-- A stop aspect. -/
def aspRed : SignalAspect := ⟨"UK_DANGER", false, [0]⟩

/-- A cautious proceed aspect (representative speed 10). -/
def aspCaution : SignalAspect := ⟨"UK_CAUTION", true, [10]⟩

/-- A clear proceed aspect (representative speed 30). -/
def aspClear : SignalAspect := ⟨"UK_CLEAR", true, [30]⟩

/-- Mixed-case proceed aspects for the signal-override scenarios. -/
def aspClearMixed : SignalAspect := ⟨"Clear", true, [30]⟩

/-- Mixed-case cautious aspect. -/
def aspCautionMixed : SignalAspect := ⟨"Caution", true, [10]⟩

/-- Default options: clock at 06:00:00, every tunable left zero so the
documented defaults apply. -/
def optsBase : SimOptions := ⟨true, 3, 0, 0, 0, 0, 21600000000000⟩

/-- The empty simulation state. -/
def stateEmpty : SimState := ⟨[], [], [], [], [], [], optsBase⟩

/-- Scenario DUP (claims about id uniqueness): two active zero-speed
trains on separate occupied head items whose next signal is the same
red signal `SIG`; blocks are clear. -/
def dupItemH1 : TrackItem := ⟨"H1", .line, 0, "", none, none, true, aspRed, []⟩

/-- Second head item of scenario DUP. -/
def dupItemH2 : TrackItem := ⟨"H2", .line, 0, "", none, none, true, aspRed, []⟩

/-- The shared red signal of scenario DUP. -/
def dupItemSIG : TrackItem :=
  ⟨"SIG", .signal, 0, "", none, none, false, aspRed, [some aspRed, some aspCaution]⟩

/-- A free line item keeping utilization at 50%. -/
def dupItemEX : TrackItem := ⟨"EX", .line, 0, "", none, none, false, aspRed, []⟩

/-- First train of scenario DUP. -/
def dupTrainA : Train :=
  ⟨"0", "S1", .waiting, 0, 0, 100, 0, 0, none, none,
    ⟨"H1", 0⟩, [⟨"H1", 0⟩, ⟨"SIG", 0⟩], none, some ⟨"SIG", 0⟩⟩

/-- Second train of scenario DUP. -/
def dupTrainB : Train :=
  ⟨"1", "S2", .waiting, 0, 0, 100, 0, 0, none, none,
    ⟨"H2", 0⟩, [⟨"H2", 0⟩, ⟨"SIG", 0⟩], none, some ⟨"SIG", 0⟩⟩

/-- Scenario DUP state. -/
def stateDup : SimState :=
  ⟨[dupTrainA, dupTrainB], [], [dupItemH1, dupItemH2, dupItemSIG, dupItemEX], [], [], [],
    optsBase⟩

/-- Scenario ORD (determinism): two ready stopped trains, each of whose
departure routes is vetoed with a "conflicting route" message naming a
distinct persistent unoccupied route, so the `blockedBy` map has two
keys with equal counts. -/
def ordItemHA : TrackItem := ⟨"HA", .line, 0, "", none, none, true, aspRed, []⟩

/-- Second head item of scenario ORD. -/
def ordItemHB : TrackItem := ⟨"HB", .line, 0, "", none, none, true, aspRed, []⟩

/-- Free route path item of scenario ORD. -/
def ordItemLA : TrackItem := ⟨"LA", .line, 0, "", none, none, false, aspRed, []⟩

/-- Free route path item of scenario ORD. -/
def ordItemLB : TrackItem := ⟨"LB", .line, 0, "", none, none, false, aspRed, []⟩

/-- Begin signal (showing proceed, so generators 2 and 4 stay quiet). -/
def ordItemSGA : TrackItem := ⟨"SGA", .signal, 0, "", none, none, false, aspClear, [some aspClear]⟩

/-- Begin signal of the second train. -/
def ordItemSGB : TrackItem := ⟨"SGB", .signal, 0, "", none, none, false, aspClear, [some aspClear]⟩

/-- The vetoed candidate route of the first train. -/
def ordRouteRA : Route := ⟨"RA", [⟨"SGA", 0⟩, ⟨"LA", 0⟩], .deactivated⟩

/-- The vetoed candidate route of the second train. -/
def ordRouteRB : Route := ⟨"RB", [⟨"SGB", 0⟩, ⟨"LB", 0⟩], .deactivated⟩

/-- The persistent route blocking the first train. -/
def ordRouteRP1 : Route := ⟨"RP1", [], .persistent⟩

/-- The persistent route blocking the second train. -/
def ordRouteRP2 : Route := ⟨"RP2", [], .persistent⟩

/-- First ready train of scenario ORD (scheduled departure 05:59:00,
head item without a place so generator 1 stays quiet). -/
def ordTrainA : Train :=
  ⟨"0", "SA", .stopped, 0, 0, 100, 10000000000, 0, some 0,
    some [⟨"PLA", "1", some 21540000000000, true⟩],
    ⟨"HA", 0⟩, [⟨"HA", 0⟩], some "SGA", some ⟨"SGA", 0⟩⟩

/-- Second ready train of scenario ORD. -/
def ordTrainB : Train :=
  ⟨"1", "SB", .stopped, 0, 0, 100, 10000000000, 0, some 0,
    some [⟨"PLB", "1", some 21540000000000, true⟩],
    ⟨"HB", 0⟩, [⟨"HB", 0⟩], some "SGB", some ⟨"SGB", 0⟩⟩

/-- Scenario ORD state. -/
def stateOrd : SimState :=
  ⟨[ordTrainA, ordTrainB], [ordRouteRA, ordRouteRB, ordRouteRP1, ordRouteRP2],
    [ordItemHA, ordItemHB, ordItemLA, ordItemLB, ordItemSGA, ordItemSGB],
    [("SGA", [ordRouteRA]), ("SGB", [ordRouteRB])],
    [[("RA", "conflicting route RP1 is active"), ("RB", "conflicting route RP2 is active")]],
    [], optsBase⟩

/-- The deactivation suggestion for RP1 emitted in scenario ORD. -/
def ordSugD1 : Suggestion :=
  ⟨"ROUTE_DEACTIVATE:RP1", .routeDeactivate,
    "Deactivate persistent route RP1 to unblock 1 departure(s)",
    "Route blocks 1 ready departure(s) via interlocking.", 11,
    [SuggestionAction.mk ("route") ("deactivate") [("id", .str "RP1")]]⟩

/-- The deactivation suggestion for RP2 emitted in scenario ORD. -/
def ordSugD2 : Suggestion :=
  ⟨"ROUTE_DEACTIVATE:RP2", .routeDeactivate,
    "Deactivate persistent route RP2 to unblock 1 departure(s)",
    "Route blocks 1 ready departure(s) via interlocking.", 11,
    [SuggestionAction.mk ("route") ("deactivate") [("id", .str "RP2")]]⟩

/-- Scenario PRED (predictive scoring): a running train 360 m from a
red signal at 4 m/s (ETA 90 s) with a clear activable route, and the
predictive maximum ETA configured to 120 s. -/
def predItemHP : TrackItem := ⟨"HP", .line, 0, "", none, none, true, aspRed, []⟩

/-- The 360 m line between train and signal. -/
def predItemLP : TrackItem := ⟨"LP", .line, 360, "", none, none, false, aspRed, []⟩

/-- The red signal ahead. -/
def predItemSP : TrackItem :=
  ⟨"SP", .signal, 0, "", none, none, false, aspRed, [some aspRed, some aspCaution]⟩

/-- The free line beyond the signal. -/
def predItemLQ : TrackItem := ⟨"LQ", .line, 200, "", none, none, false, aspRed, []⟩

/-- The activable route beginning at the red signal. -/
def predRouteRQ : Route := ⟨"RQ", [⟨"SP", 0⟩, ⟨"LQ", 0⟩], .deactivated⟩

/-- The approaching train (speed 4 m/s, not braking). -/
def predTrain : Train :=
  ⟨"0", "SP1", .running, 4, 4, 100, 0, 0, none, none,
    ⟨"HP", 0⟩, [⟨"HP", 0⟩, ⟨"LP", 0⟩, ⟨"SP", 0⟩], some "SP", none⟩

/-- Options with `suggestPredictiveMaxETASeconds = 120`. -/
def optsEta120 : SimOptions := ⟨true, 3, 0, 0, 120, 0, 21600000000000⟩

/-- Scenario PRED state (configured maximum ETA 120 s). -/
def statePred : SimState :=
  ⟨[predTrain], [predRouteRQ], [predItemHP, predItemLP, predItemSP, predItemLQ],
    [("SP", [predRouteRQ])], [], [], optsEta120⟩

/-- The 400 m line of the default-options predictive scenario. -/
def predItemLPd : TrackItem := ⟨"LP", .line, 400, "", none, none, false, aspRed, []⟩

/-- The approaching train of the default-options scenario (20 m/s,
ETA 20 s). -/
def predTrainD : Train :=
  ⟨"0", "SP1", .running, 20, 20, 100, 0, 0, none, none,
    ⟨"HP", 0⟩, [⟨"HP", 0⟩, ⟨"LP", 0⟩, ⟨"SP", 0⟩], some "SP", none⟩

/-- Scenario PRED with default options: ETA 20 s, score 19. -/
def statePredD : SimState :=
  ⟨[predTrainD], [predRouteRQ], [predItemHP, predItemLPd, predItemSP, predItemLQ],
    [("SP", [predRouteRQ])], [], [], optsBase⟩

/-- The predictive suggestion emitted in scenario PRED (score 12
despite the configured 120 s maximum ETA). -/
def predSug12 : Suggestion :=
  ⟨"ROUTE_ACTIVATE:0:RQ:predictive", .routeActivate,
    "Proactively set route RQ for approaching train SP1",
    "Train SP1 approaching signal SP in ~90s. Proactive route setting prevents stop.", 12,
    [SuggestionAction.mk ("route") ("activate") [("id", .str "RQ"), ("persistent", .bool false)]]⟩

/-- The predictive suggestion emitted under default options (ETA 20 s,
score 19). -/
def predSug19 : Suggestion :=
  ⟨"ROUTE_ACTIVATE:0:RQ:predictive", .routeActivate,
    "Proactively set route RQ for approaching train SP1",
    "Train SP1 approaching signal SP in ~20s. Proactive route setting prevents stop.", 19,
    [SuggestionAction.mk ("route") ("activate") [("id", .str "RQ"), ("persistent", .bool false)]]⟩

/-- Scenario ACC (accept paths): one train, one persistent route, one
red signal whose library carries mixed-case proceed aspects. -/
def accItemSIG : TrackItem :=
  ⟨"SIG", .signal, 0, "", none, none, false, aspRed, [some aspClearMixed, some aspCautionMixed]⟩

/-- Scenario ACC state. -/
def stateAcc : SimState :=
  ⟨[dupTrainA], [ordRouteRP1], [accItemSIG], [], [],
    [("Clear", aspClearMixed), ("Caution", aspCautionMixed)], optsBase⟩

/-- Scenario ACC engine. -/
def engAcc : EngineState := ⟨stateAcc, [], none, none⟩

/-- A slow train (0.2 m/s, no lower braking target): the code divides
by 0.2 where the claimed clamp would divide by 0.5. -/
def slowTrain : Train :=
  ⟨"0", "SL", .running, 1/5, 1/5, 100, 0, 0, none, none, ⟨"H1", 0⟩, [⟨"H1", 0⟩], none, none⟩

end TsSuggest

namespace TsSuggest

/-! ### Lemmas about the id grammar: `goSplit` recovers the components
of the `Sprintf`-built ids when the components are colon-free. -/

theorem strMk_data (s : String) : String.mk s.data = s := rfl

theorem colon_data : (":" : String).data = [':'] := rfl

theorem colonPred_data : (":predictive" : String).data = ':' :: ("predictive" : String).data := rfl

theorem splitChars_not_mem (sep : Char) (a : List Char) (h : sep ∉ a) (acc : List Char) :
    splitChars sep a acc = [acc.reverse ++ a] := by
  induction a generalizing acc with
  | nil => simp [splitChars]
  | cons c cs ih =>
    rw [splitChars, if_neg (by rintro rfl; exact h (List.mem_cons_self _ _)),
      ih (fun hm => h (List.mem_cons_of_mem _ hm))]
    simp

theorem splitChars_append (sep : Char) (a : List Char) (h : sep ∉ a) (rest acc : List Char) :
    splitChars sep (a ++ sep :: rest) acc = (acc.reverse ++ a) :: splitChars sep rest [] := by
  induction a generalizing acc with
  | nil => simp [splitChars]
  | cons c cs ih =>
    rw [List.cons_append, splitChars, if_neg (by rintro rfl; exact h (List.mem_cons_self _ _)),
      ih (fun hm => h (List.mem_cons_of_mem _ hm))]
    simp

theorem goSplit_cf (s : String) (hs : ':' ∉ s.data) : goSplit ':' s = [s] := by
  unfold goSplit
  rw [splitChars_not_mem _ _ hs]
  simp [strMk_data]

theorem goSplit_cons (k rest : String) (hk : ':' ∉ k.data) :
    goSplit ':' (k ++ ":" ++ rest) = k :: goSplit ':' rest := by
  unfold goSplit
  have hd : (k ++ ":" ++ rest).data = k.data ++ ':' :: rest.data := by
    simp [String.data_append, colon_data]
  rw [hd, splitChars_append _ _ hk]
  simp [strMk_data]

theorem goSplit_tag1 (k t : String) (hk : ':' ∉ k.data) (ht : ':' ∉ t.data) :
    goSplit ':' (k ++ ":" ++ t) = [k, t] := by
  rw [goSplit_cons _ _ hk, goSplit_cf _ ht]

theorem goSplit_tag2open (k t r : String) (hk : ':' ∉ k.data) (ht : ':' ∉ t.data) :
    goSplit ':' (k ++ ":" ++ t ++ ":" ++ r) = k :: t :: goSplit ':' r := by
  have hshape : k ++ ":" ++ t ++ ":" ++ r = k ++ ":" ++ (t ++ ":" ++ r) := by
    apply String.ext
    simp [String.data_append]
  rw [hshape, goSplit_cons _ _ hk, goSplit_cons _ _ ht]

theorem goSplit_tag2 (k t r : String) (hk : ':' ∉ k.data) (ht : ':' ∉ t.data)
    (hr : ':' ∉ r.data) :
    goSplit ':' (k ++ ":" ++ t ++ ":" ++ r) = [k, t, r] := by
  rw [goSplit_tag2open _ _ _ hk ht, goSplit_cf _ hr]

theorem goSplit_pred (k t r : String) (hk : ':' ∉ k.data) (ht : ':' ∉ t.data)
    (hr : ':' ∉ r.data) :
    goSplit ':' (k ++ ":" ++ t ++ ":" ++ r ++ ":predictive") = [k, t, r, "predictive"] := by
  have hshape : k ++ ":" ++ t ++ ":" ++ r ++ ":predictive" =
      k ++ ":" ++ (t ++ ":" ++ (r ++ ":" ++ "predictive")) := by
    apply String.ext
    simp [String.data_append, colonPred_data, colon_data]
  rw [hshape, goSplit_cons _ _ hk, goSplit_cons _ _ ht, goSplit_cons _ _ hr,
    goSplit_cf _ (by decide)]

/-! ### Generic list lemmas. -/

theorem nodup_flatMap_ids {α β : Type} (l : List α) (g : α → List β)
    (h1 : ∀ a ∈ l, (g a).Nodup)
    (h2 : l.Pairwise (fun a a' => ∀ x ∈ g a, x ∉ g a')) :
    (l.flatMap g).Nodup := by
  induction l with
  | nil => simp
  | cons a l ih =>
    rw [List.flatMap_cons, List.nodup_append]
    cases h2 with
    | cons hhead htail =>
      refine ⟨h1 a (List.mem_cons_self _ _), ih (fun b hb => h1 b (List.mem_cons_of_mem _ hb)) htail, ?_⟩
      intro x hx hx'
      obtain ⟨b, hb, hxb⟩ := List.mem_flatMap.mp hx'
      exact hhead b hb x hx hxb

theorem map_filterMap_sublist {α β γ : Type} (l : List α) (h : α → Option β) (f : β → γ)
    (g : α → γ) (hc : ∀ a x, h a = some x → f x = g a) :
    ((l.filterMap h).map f).Sublist (l.map g) := by
  induction l with
  | nil => simp
  | cons a l ih =>
    rw [List.filterMap_cons, List.map_cons]
    cases hh : h a with
    | none => exact ih.trans (List.sublist_cons_self _ _)
    | some x =>
      rw [List.map_cons, hc a x hh]
      exact ih.cons₂ _

theorem sorted_perm_unique {α : Type} {β : Type} [LinearOrder β] (key : α → β) :
    ∀ {l1 l2 : List α}, l1.Perm l2 →
      l1.Pairwise (fun a b => key b ≤ key a) →
      l2.Pairwise (fun a b => key b ≤ key a) →
      (l1.map key).Nodup → l1 = l2 := by
  intro l1
  induction l1 with
  | nil =>
    intro l2 hp _ _ _
    exact (hp.symm.eq_nil).symm ▸ rfl
  | cons a l1 ih =>
    intro l2 hp hs1 hs2 hnd
    cases l2 with
    | nil => exact absurd hp.eq_nil (by simp)
    | cons b l2 =>
      have hab : a = b := by
        by_contra hne
        have ha2 : a ∈ l2 := by
          have := hp.subset (List.mem_cons_self a l1)
          exact (List.mem_cons.mp this).resolve_left hne
        have hb1 : b ∈ l1 := by
          have := hp.symm.subset (List.mem_cons_self b l2)
          exact (List.mem_cons.mp this).resolve_left (fun e => hne e.symm)
        have h1 : key a ≤ key b := (List.pairwise_cons.mp hs2).1 a ha2
        have h2 : key b ≤ key a := (List.pairwise_cons.mp hs1).1 b hb1
        have heq : key b = key a := le_antisymm h2 h1
        have : key a ∉ l1.map key := (List.nodup_cons.mp (by simpa using hnd)).1
        exact this (heq ▸ List.mem_map_of_mem key hb1)
      subst hab
      have hp' : l1.Perm l2 := hp.cons_inv
      have := ih hp' (List.pairwise_cons.mp hs1).2 (List.pairwise_cons.mp hs2).2
        (by simpa using (List.nodup_cons.mp (by simpa using hnd)).2)
      exact this ▸ rfl

end TsSuggest

namespace TsSuggest

/-! ### Claim C6: cap and ordering of snapshots. -/

/-- C6: every snapshot produced by a recomputation has at most
`suggestMaxItems` items (50 when the option is unset or non-positive),
and its scores are non-increasing in list order. -/
theorem C6_cap_and_ordering (s : SimState) (rej : List (String × ℤ)) (ord : List String)
    (snap : Suggestions) (h : Recomputes s rej ord snap) :
    snap.items.length ≤ effMaxItems s ∧ ScoresSorted snap.items := by
  obtain ⟨-, besSorted, out, -, -, -, hsort, hsnap⟩ := h
  subst hsnap
  constructor
  · exact le_trans (List.length_filter_le _ _) (List.length_take_le (effMaxItems s) out)
  · exact List.Pairwise.sublist ((List.filter_sublist _).trans (List.take_sublist _ _)) hsort

/-- Witness for C6 at a concrete recomputation of the empty state. -/
theorem C6_cap_and_ordering_witness :
    (Suggestions.mk [] 21600000000000).items.length ≤ effMaxItems stateEmpty ∧
      ScoresSorted (Suggestions.mk [] 21600000000000).items :=
  C6_cap_and_ordering stateEmpty [] [] (Suggestions.mk [] 21600000000000)
    ⟨List.Perm.refl _, [], [], List.Perm.refl _, List.Pairwise.nil, List.Perm.refl _,
      List.Pairwise.nil, rfl⟩

end TsSuggest

namespace TsSuggest

/-! ### Shapes of generator ids. -/

theorem goSplit_gidAct (t r : String) (ht : ':' ∉ t.data) (hr : ':' ∉ r.data) :
    goSplit ':' ("ROUTE_ACTIVATE:" ++ t ++ ":" ++ r) = ["ROUTE_ACTIVATE", t, r] := by
  have h : ("ROUTE_ACTIVATE:" : String) = "ROUTE_ACTIVATE" ++ ":" := rfl
  rw [h]
  exact goSplit_tag2 _ _ _ (by decide) ht hr

theorem goSplit_gidPred (t r : String) (ht : ':' ∉ t.data) (hr : ':' ∉ r.data) :
    goSplit ':' ("ROUTE_ACTIVATE:" ++ t ++ ":" ++ r ++ ":predictive") =
      ["ROUTE_ACTIVATE", t, r, "predictive"] := by
  have h : ("ROUTE_ACTIVATE:" : String) = "ROUTE_ACTIVATE" ++ ":" := rfl
  rw [h]
  exact goSplit_pred _ _ _ (by decide) ht hr

theorem goSplit_gidProceed (t : String) (ht : ':' ∉ t.data) :
    goSplit ':' ("TRAIN_PROCEED_WITH_CAUTION:" ++ t) = ["TRAIN_PROCEED_WITH_CAUTION", t] := by
  have h : ("TRAIN_PROCEED_WITH_CAUTION:" : String) = "TRAIN_PROCEED_WITH_CAUTION" ++ ":" := rfl
  rw [h]
  exact goSplit_tag1 _ _ (by decide) ht

theorem goSplit_gidDeact (k : String) (hk : ':' ∉ k.data) :
    goSplit ':' ("ROUTE_DEACTIVATE:" ++ k) = ["ROUTE_DEACTIVATE", k] := by
  have h : ("ROUTE_DEACTIVATE:" : String) = "ROUTE_DEACTIVATE" ++ ":" := rfl
  rw [h]
  exact goSplit_tag1 _ _ (by decide) hk

theorem goSplit_gidOverride (sg a : String) (hs : ':' ∉ sg.data) :
    goSplit ':' ("SIGNAL_OVERRIDE:" ++ sg ++ ":" ++ a) =
      "SIGNAL_OVERRIDE" :: sg :: goSplit ':' a := by
  have h : ("SIGNAL_OVERRIDE:" : String) = "SIGNAL_OVERRIDE" ++ ":" := rfl
  rw [h]
  exact goSplit_tag2open _ _ _ (by decide) hs

/-! ### Index lookup facts. -/

theorem routesFrom_cases (s : SimState) (sigId : String) :
    routesFrom s sigId = [] ∨ ∃ p ∈ s.routesByBeginSignal, routesFrom s sigId = p.2 := by
  unfold routesFrom alookup
  cases hf : s.routesByBeginSignal.find? (fun p => p.1 == sigId) with
  | none => simp
  | some p => exact Or.inr ⟨p, List.mem_of_find?_eq_some hf, by simp⟩

theorem routesFrom_nodup {s : SimState}
    (hwf : ∀ p ∈ s.routesByBeginSignal, (p.2.map Route.rId).Nodup ∧ ∀ r ∈ p.2, ':' ∉ r.rId.data)
    (sigId : String) : ((routesFrom s sigId).map Route.rId).Nodup := by
  rcases routesFrom_cases s sigId with h | ⟨p, hp, h⟩
  · simp [h]
  · rw [h]; exact (hwf p hp).1

theorem routesFrom_colonFree {s : SimState}
    (hwf : ∀ p ∈ s.routesByBeginSignal, (p.2.map Route.rId).Nodup ∧ ∀ r ∈ p.2, ':' ∉ r.rId.data)
    (sigId : String) : ∀ r ∈ routesFrom s sigId, ':' ∉ r.rId.data := by
  rcases routesFrom_cases s sigId with h | ⟨p, hp, h⟩
  · simp [h]
  · rw [h]; exact (hwf p hp).2

theorem lookupRoute_mem {s : SimState} {k : String} {r : Route}
    (h : lookupRoute s k = some r) : r ∈ s.routes :=
  List.mem_of_find?_eq_some h

theorem lookupRoute_rId {s : SimState} {k : String} {r : Route}
    (h : lookupRoute s k = some r) : r.rId = k := by
  have := List.find?_some h
  simpa using this

theorem lookupItem_mem {s : SimState} {k : String} {ti : TrackItem}
    (h : lookupItem s k = some ti) : ti ∈ s.trackItems :=
  List.mem_of_find?_eq_some h

end TsSuggest


namespace TsSuggest

/-! ### Membership shapes of the generator outputs. -/

theorem mem_departureForTrain {s : SimState} {util : ℚ} {t : Train} {x : Suggestion}
    (hx : x ∈ departureForTrain s util t) :
    x.kind = .routeActivate ∧
    ∃ sigId r, r ∈ routesFrom s sigId ∧ x.id = "ROUTE_ACTIVATE:" ++ t.tId ++ ":" ++ r.rId := by
  unfold departureForTrain at hx
  repeat' split at hx
  all_goals try exact absurd hx (List.not_mem_nil x)
  obtain ⟨r, hr, hfr⟩ := List.mem_filterMap.mp hx
  unfold departureEmit at hfr
  repeat' split at hfr
  all_goals try exact Option.noConfusion hfr
  obtain rfl := Option.some.inj hfr
  exact ⟨rfl, _, r, hr, rfl⟩

theorem mem_predictiveForTrain {s : SimState} {t : Train} {x : Suggestion}
    (hx : x ∈ predictiveForTrain s t) :
    x.kind = .routeActivate ∧
    ∃ sigId r, r ∈ routesFrom s sigId ∧
      x.id = "ROUTE_ACTIVATE:" ++ t.tId ++ ":" ++ r.rId ++ ":predictive" := by
  unfold predictiveForTrain at hx
  repeat' split at hx
  all_goals try exact absurd hx (List.not_mem_nil x)
  all_goals
    obtain rfl := List.mem_singleton.mp hx
  all_goals
    exact ⟨rfl, _, _, List.mem_of_find?_eq_some (by assumption), rfl⟩

theorem predictiveForTrain_len (s : SimState) (t : Train) :
    (predictiveForTrain s t).length ≤ 1 := by
  unfold predictiveForTrain
  repeat' split
  all_goals simp

theorem mem_proceedForTrain {s : SimState} {util : ℚ} {t : Train} {x : Suggestion}
    (hx : x ∈ proceedForTrain s util t) :
    x.kind = .trainProceedWithCaution ∧ x.id = "TRAIN_PROCEED_WITH_CAUTION:" ++ t.tId := by
  unfold proceedForTrain at hx
  repeat' split at hx
  all_goals try exact absurd hx (List.not_mem_nil x)
  obtain rfl := List.mem_singleton.mp hx
  exact ⟨rfl, rfl⟩

theorem proceedForTrain_len (s : SimState) (util : ℚ) (t : Train) :
    (proceedForTrain s util t).length ≤ 1 := by
  unfold proceedForTrain
  repeat' split
  all_goals simp

theorem mem_deactCandidates {s : SimState} {util : ℚ} {bes : List (String × ℕ)}
    {x : Suggestion} (hx : x ∈ deactCandidates s util bes) :
    x.kind = .routeDeactivate ∧
    ∃ be ∈ bes, ∃ r, lookupRoute s be.1 = some r ∧ x.id = "ROUTE_DEACTIVATE:" ++ be.1 := by
  unfold deactCandidates at hx
  obtain ⟨be, hbe, hfr⟩ := List.mem_filterMap.mp hx
  unfold deactEmit at hfr
  split at hfr
  · exact Option.noConfusion hfr
  · rename_i r hlook
    obtain rfl := Option.some.inj hfr
    refine ⟨rfl, be, (List.take_sublist 5 bes).subset hbe, r, hlook, ?_⟩
    show "ROUTE_DEACTIVATE:" ++ r.rId = "ROUTE_DEACTIVATE:" ++ be.1
    rw [lookupRoute_rId hlook]

theorem mem_overrideForTrain {s : SimState} {util : ℚ} {t : Train} {x : Suggestion}
    (hx : x ∈ overrideForTrain s util t) :
    x.kind = .signalOverride ∧
    ∃ (sig : TrackItem) (asp : SignalAspect),
      sig ∈ s.trackItems ∧ x.id = "SIGNAL_OVERRIDE:" ++ sig.tiId ++ ":" ++ asp.name := by
  unfold overrideForTrain at hx
  repeat' split at hx
  all_goals try exact absurd hx (List.not_mem_nil x)
  obtain rfl := List.mem_singleton.mp hx
  exact ⟨rfl, _, _, lookupItem_mem (by assumption), rfl⟩

end TsSuggest

namespace TsSuggest

/-! ### Facts about the `blockedBy` aggregation. -/

theorem addBlocked_keys (m : List (String × List String)) (k tid : String) :
    (addBlocked m k tid).map (fun p => p.1) =
      if m.any (fun p => p.1 == k) then m.map (fun p => p.1)
      else m.map (fun p => p.1) ++ [k] := by
  unfold addBlocked
  split
  · rw [List.map_map]
    refine List.map_congr_left ?_
    intro p _
    show (if p.1 == k then (p.1, p.2 ++ [tid]) else p).1 = p.1
    split <;> rfl
  · simp

theorem blockingRouteOf_shape {s : SimState} {t : Train} {k : String}
    (h : blockingRouteOf s t = some k) : ∃ rp ∈ s.routes, rp.rId = k := by
  unfold blockingRouteOf at h
  split at h
  · exact Option.noConfusion h
  · obtain ⟨r, hr, hinner⟩ := List.exists_of_findSome?_eq_some h
    repeat' split at hinner
    all_goals try exact Option.noConfusion hinner
    exact ⟨_, lookupRoute_mem (by assumption), Option.some.inj hinner⟩

theorem blockedKeys_nodup (s : SimState) : (blockedKeys s).Nodup := by
  unfold blockedKeys blockedBy
  generalize readyTrains s = ts
  suffices h : ∀ (ts : List Train) (m : List (String × List String)),
      (m.map (fun p => p.1)).Nodup →
      ((ts.foldl (fun m t =>
        match blockingRouteOf s t with
        | some k => addBlocked m k t.tId
        | none => m) m).map (fun p => p.1)).Nodup by
    exact h ts [] (by simp)
  intro ts
  induction ts with
  | nil => intro m hm; simpa using hm
  | cons t ts ih =>
    intro m hm
    rw [List.foldl_cons]
    apply ih
    cases hb : blockingRouteOf s t with
    | none => simpa using hm
    | some k =>
      show ((addBlocked m k t.tId).map (fun p => p.1)).Nodup
      rw [addBlocked_keys]
      split
      · exact hm
      · rename_i hany
        have hk : k ∉ m.map (fun p => p.1) := by
          intro hkmem
          obtain ⟨p, hp, hpk⟩ := List.mem_map.mp hkmem
          exact hany (List.any_eq_true.mpr ⟨p, hp, by simp [hpk]⟩)
        simp [List.nodup_append, hm, hk]

theorem blockedKeys_from (s : SimState) : ∀ k ∈ blockedKeys s, ∃ rp ∈ s.routes, rp.rId = k := by
  unfold blockedKeys blockedBy
  generalize readyTrains s = ts
  suffices h : ∀ (ts : List Train) (m : List (String × List String)),
      (∀ k ∈ m.map (fun p => p.1), ∃ rp ∈ s.routes, rp.rId = k) →
      ∀ k ∈ ((ts.foldl (fun m t =>
        match blockingRouteOf s t with
        | some k => addBlocked m k t.tId
        | none => m) m).map (fun p => p.1)), ∃ rp ∈ s.routes, rp.rId = k by
    exact h ts [] (by simp)
  intro ts
  induction ts with
  | nil => intro m hm; simpa using hm
  | cons t ts ih =>
    intro m hm
    rw [List.foldl_cons]
    apply ih
    cases hb : blockingRouteOf s t with
    | none => simpa using hm
    | some k =>
      show ∀ k2 ∈ (addBlocked m k t.tId).map (fun p => p.1), ∃ rp ∈ s.routes, rp.rId = k2
      intro k2 hk2
      rw [addBlocked_keys] at hk2
      split at hk2
      · exact hm k2 hk2
      · rcases List.mem_append.mp hk2 with h2 | h2
        · exact hm k2 h2
        · obtain rfl := List.mem_singleton.mp h2
          exact blockingRouteOf_shape hb

theorem besOf_keys_sublist (s : SimState) (ord : List String) :
    ((besOf s ord).map (fun be => be.1)).Sublist ord := by
  unfold besOf
  have h := map_filterMap_sublist ord
    (fun k => (alookup (blockedBy s) k).map (fun l => (k, l.length)))
    (fun be => be.1) (fun k => k) ?_
  · simpa using h
  · intro k be hbe
    replace hbe : Option.map (fun l => (k, l.length)) (alookup (blockedBy s) k) = some be := hbe
    cases ha : alookup (blockedBy s) k with
    | none => rw [ha] at hbe; exact Option.noConfusion hbe
    | some l =>
      rw [ha] at hbe
      obtain rfl := Option.some.inj hbe
      rfl

theorem besOf_mem_key {s : SimState} {ord : List String} {be : String × ℕ}
    (h : be ∈ besOf s ord) : be.1 ∈ blockedKeys s := by
  unfold besOf at h
  obtain ⟨k, _, hf⟩ := List.mem_filterMap.mp h
  replace hf : Option.map (fun l => (k, l.length)) (alookup (blockedBy s) k) = some be := hf
  cases ha : alookup (blockedBy s) k with
  | none => rw [ha] at hf; exact Option.noConfusion hf
  | some l =>
    rw [ha] at hf
    obtain rfl := Option.some.inj hf
    unfold alookup at ha
    cases hfind : (blockedBy s).find? (fun p => p.1 == k) with
    | none => rw [hfind] at ha; exact Option.noConfusion ha
    | some p =>
      have hpk : p.1 = k := by simpa using List.find?_some hfind
      have : p ∈ blockedBy s := List.mem_of_find?_eq_some hfind
      show (k, l.length).1 ∈ (blockedBy s).map (fun p => p.1)
      exact hpk ▸ List.mem_map_of_mem (fun p => p.1) this

end TsSuggest

namespace TsSuggest

/-! ### Claim C8: at most one predictive suggestion per train. -/

theorem isPredFor_three {t : Train} {x : Suggestion} {a b : String}
    (h : goSplit ':' x.id = ["ROUTE_ACTIVATE", a, b]) : isPredFor t x = false := by
  unfold isPredFor
  rw [h]

theorem isPredFor_head_ne {t : Train} {x : Suggestion} {k : String} {rest : List String}
    (h : goSplit ':' x.id = k :: rest) (hk : (k == "ROUTE_ACTIVATE") = false) :
    isPredFor t x = false := by
  unfold isPredFor
  rw [h]
  rcases rest with _ | ⟨b, _ | ⟨c, _ | ⟨d, _ | rest⟩⟩⟩ <;> simp [hk]

theorem isPredFor_pred_id {t : Train} {x : Suggestion} {a r : String}
    (h : goSplit ':' x.id = ["ROUTE_ACTIVATE", a, r, "predictive"]) :
    isPredFor t x = (a == t.tId) := by
  unfold isPredFor
  rw [h]
  simp

theorem countP_flatMap_le_one {α : Type} (p : Suggestion → Bool) (key : α → String)
    (g : α → List Suggestion) (k : String) :
    ∀ (l : List α), ((l.map key).Nodup) →
      (∀ a ∈ l, (g a).countP p ≤ 1) →
      (∀ a ∈ l, ∀ x ∈ g a, p x = true → key a = k) →
      (l.flatMap g).countP p ≤ 1 := by
  intro l
  induction l with
  | nil => intro _ _ _; simp
  | cons a l ih =>
    intro hnd hle hsel
    rw [List.flatMap_cons, List.countP_append]
    by_cases hk : key a = k
    · have hrest : (l.flatMap g).countP p = 0 := by
        rw [List.countP_eq_zero]
        intro x hx
        obtain ⟨a2, ha2, hxa2⟩ := List.mem_flatMap.mp hx
        intro hpx
        have h1 : key a2 = k := hsel a2 (List.mem_cons_of_mem _ ha2) x hxa2 hpx
        have h2 : key a ∉ l.map key := (List.nodup_cons.mp hnd).1
        apply h2
        rw [hk, ← h1]
        exact List.mem_map_of_mem key ha2
      rw [hrest]
      simpa using hle a (List.mem_cons_self _ _)
    · have hhead : (g a).countP p = 0 := by
        rw [List.countP_eq_zero]
        intro x hx hpx
        exact hk (hsel a (List.mem_cons_self _ _) x hx hpx)
      rw [hhead]
      simpa using ih (List.nodup_cons.mp hnd).2 (fun b hb => hle b (List.mem_cons_of_mem _ hb))
        (fun b hb x hx hpx => hsel b (List.mem_cons_of_mem _ hb) x hx hpx)

/-- C8: in every snapshot produced by a recomputation of a well-formed
state, each train has at most one item whose id carries the
`:predictive` suffix (that is, parses as
`ROUTE_ACTIVATE:<trainId>:<routeId>:predictive`). -/
theorem C8_predictive_cardinality (s : SimState) (rej : List (String × ℤ))
    (ord : List String) (snap : Suggestions) (wf : WFState s)
    (h : Recomputes s rej ord snap) (t : Train) :
    snap.items.countP (isPredFor t) ≤ 1 := by
  obtain ⟨w1, w2, w3, w4, w5⟩ := wf
  obtain ⟨hord, bes, out, hbp, hbs, hop, hos, rfl⟩ := h
  have hchain : (filterRejected rej s.options.currentTime
      (out.take (effMaxItems s))).countP (isPredFor t) ≤
      (candidatesWith s bes).countP (isPredFor t) := by
    calc (filterRejected rej s.options.currentTime
        (out.take (effMaxItems s))).countP (isPredFor t)
        ≤ (out.take (effMaxItems s)).countP (isPredFor t) :=
          List.Sublist.countP_le _ (List.filter_sublist _)
      _ ≤ out.countP (isPredFor t) := List.Sublist.countP_le _ (List.take_sublist _ _)
      _ = (candidatesWith s bes).countP (isPredFor t) := hop.countP_eq _
  refine le_trans hchain ?_
  unfold candidatesWith
  rw [List.countP_append, List.countP_append, List.countP_append, List.countP_append]
  have hA : (s.trains.flatMap (departureForTrain s (currentUtilizationPercent s))).countP
      (isPredFor t) = 0 := by
    rw [List.countP_eq_zero]
    intro x hx
    obtain ⟨t2, ht2, hxm⟩ := List.mem_flatMap.mp hx
    obtain ⟨-, sigId, r, hr, hid⟩ := mem_departureForTrain hxm
    have hsplit : goSplit ':' x.id = ["ROUTE_ACTIVATE", t2.tId, r.rId] := by
      rw [hid]
      exact goSplit_gidAct _ _ (w2 t2 ht2) (routesFrom_colonFree w4 sigId r hr)
    simp [isPredFor_three hsplit]
  have hC : (s.trains.flatMap (proceedForTrain s (currentUtilizationPercent s))).countP
      (isPredFor t) = 0 := by
    rw [List.countP_eq_zero]
    intro x hx
    obtain ⟨t2, ht2, hxm⟩ := List.mem_flatMap.mp hx
    obtain ⟨-, hid⟩ := mem_proceedForTrain hxm
    have hsplit : goSplit ':' x.id = ["TRAIN_PROCEED_WITH_CAUTION", t2.tId] := by
      rw [hid]
      exact goSplit_gidProceed _ (w2 t2 ht2)
    simp [isPredFor_head_ne hsplit (by decide)]
  have hD : (deactCandidates s (currentUtilizationPercent s) bes).countP (isPredFor t) = 0 := by
    rw [List.countP_eq_zero]
    intro x hx
    obtain ⟨-, be, hbe, r, hlook, hid⟩ := mem_deactCandidates hx
    obtain ⟨rp, hrp, hrid⟩ := blockedKeys_from s be.1 (besOf_mem_key (hbp.subset hbe))
    have hbcf : ':' ∉ be.1.data := hrid ▸ w3 rp hrp
    have hsplit : goSplit ':' x.id = ["ROUTE_DEACTIVATE", be.1] := by
      rw [hid]
      exact goSplit_gidDeact _ hbcf
    simp [isPredFor_head_ne hsplit (by decide)]
  have hE : (s.trains.flatMap (overrideForTrain s (currentUtilizationPercent s))).countP
      (isPredFor t) = 0 := by
    rw [List.countP_eq_zero]
    intro x hx
    obtain ⟨t2, ht2, hxm⟩ := List.mem_flatMap.mp hx
    obtain ⟨-, sig, asp, hsigmem, hid⟩ := mem_overrideForTrain hxm
    have hsplit : goSplit ':' x.id = "SIGNAL_OVERRIDE" :: sig.tiId :: goSplit ':' asp.name := by
      rw [hid]
      exact goSplit_gidOverride _ _ (w5 sig hsigmem)
    simp [isPredFor_head_ne hsplit (by decide)]
  have hB : (s.trains.flatMap (predictiveForTrain s)).countP (isPredFor t) ≤ 1 := by
    refine countP_flatMap_le_one (isPredFor t) Train.tId (predictiveForTrain s) t.tId
      s.trains w1 ?_ ?_
    · intro a _
      exact le_trans (List.countP_le_length _) (predictiveForTrain_len s a)
    · intro a ha x hx hpx
      obtain ⟨-, sigId, r, hr, hid⟩ := mem_predictiveForTrain hx
      have hsplit : goSplit ':' x.id = ["ROUTE_ACTIVATE", a.tId, r.rId, "predictive"] := by
        rw [hid]
        exact goSplit_gidPred _ _ (w2 a ha) (routesFrom_colonFree w4 sigId r hr)
      rw [isPredFor_pred_id hsplit] at hpx
      exact beq_iff_eq.mp hpx
  omega

/-- Witness for C8 at a concrete recomputation of the empty state. -/
theorem C8_predictive_cardinality_witness :
    (Suggestions.mk [] 21600000000000).items.countP (isPredFor dupTrainA) ≤ 1 :=
  C8_predictive_cardinality stateEmpty [] [] (Suggestions.mk [] 21600000000000)
    (by refine ⟨?_, ?_, ?_, ?_, ?_⟩ <;> simp [stateEmpty])
    ⟨List.Perm.refl _, [], [], List.Perm.refl _, List.Pairwise.nil, List.Perm.refl _,
      List.Pairwise.nil, rfl⟩ dupTrainA

end TsSuggest

namespace TsSuggest

/-! ### Claim C7: distinctness of snapshot ids. -/

theorem id_ne_of_split_ne {x y : Suggestion} {lx ly : List String}
    (hx : goSplit ':' x.id = lx) (hy : goSplit ':' y.id = ly) (hne : lx ≠ ly) :
    x.id ≠ y.id := by
  intro he
  rw [he] at hx
  exact hne (hx.symm.trans hy)

theorem nodup_of_len_le_one {α : Type} {l : List α} (h : l.length ≤ 1) : l.Nodup := by
  cases l with
  | nil => exact List.nodup_nil
  | cons a l =>
    cases l with
    | nil => exact List.nodup_singleton a
    | cons b l => simp at h

theorem pairwise_of_mem {α : Type} {r : α → α → Prop} {l : List α}
    (h : ∀ a ∈ l, ∀ b ∈ l, r a b) : l.Pairwise r := by
  induction l with
  | nil => exact List.Pairwise.nil
  | cons a l ih =>
    refine List.Pairwise.cons ?_ (ih (fun x hx y hy =>
      h x (List.mem_cons_of_mem _ hx) y (List.mem_cons_of_mem _ hy)))
    intro b hb
    exact h a (List.mem_cons_self _ _) b (List.mem_cons_of_mem _ hb)

theorem departure_ids_nodup (s : SimState) (util : ℚ) (t : Train)
    (hwf : ∀ p ∈ s.routesByBeginSignal, (p.2.map Route.rId).Nodup ∧ ∀ r ∈ p.2, ':' ∉ r.rId.data)
    (ht : ':' ∉ t.tId.data) :
    ((departureForTrain s util t).map Suggestion.id).Nodup := by
  unfold departureForTrain
  repeat' split
  all_goals try simp
  refine List.Sublist.nodup (map_filterMap_sublist _ _ _
    (fun r => "ROUTE_ACTIVATE:" ++ t.tId ++ ":" ++ r.rId) ?_) ?_
  · intro r x hr
    unfold departureEmit at hr
    repeat' split at hr
    all_goals try exact Option.noConfusion hr
    obtain rfl := Option.some.inj hr
    rfl
  · have hf : (fun r : Route => "ROUTE_ACTIVATE:" ++ t.tId ++ ":" ++ r.rId) =
        (fun a : String => "ROUTE_ACTIVATE:" ++ t.tId ++ ":" ++ a) ∘ Route.rId := rfl
    rw [hf, ← List.map_map]
    refine List.Nodup.map_on ?_ (routesFrom_nodup hwf _)
    intro a ha b hb he
    obtain ⟨ra, hra, rfl⟩ := List.mem_map.mp ha
    obtain ⟨rb, hrb, rfl⟩ := List.mem_map.mp hb
    have h1 := goSplit_gidAct t.tId ra.rId ht (routesFrom_colonFree hwf _ ra hra)
    have h2 := goSplit_gidAct t.tId rb.rId ht (routesFrom_colonFree hwf _ rb hrb)
    rw [he] at h1
    have := h1.symm.trans h2
    simpa using this

theorem deact_ids_nodup (s : SimState) (util : ℚ) (bes : List (String × ℕ))
    (hknd : (bes.map (fun be => be.1)).Nodup)
    (hkcf : ∀ be ∈ bes, ':' ∉ be.1.data) :
    ((deactCandidates s util bes).map Suggestion.id).Nodup := by
  unfold deactCandidates
  refine List.Sublist.nodup (map_filterMap_sublist _ _ _
    (fun be => "ROUTE_DEACTIVATE:" ++ be.1) ?_) ?_
  · intro be x hbe
    unfold deactEmit at hbe
    split at hbe
    · exact Option.noConfusion hbe
    · rename_i r hlook
      obtain rfl := Option.some.inj hbe
      show "ROUTE_DEACTIVATE:" ++ r.rId = "ROUTE_DEACTIVATE:" ++ be.1
      rw [lookupRoute_rId hlook]
  · have hf : (fun be : String × ℕ => "ROUTE_DEACTIVATE:" ++ be.1) =
        (fun a : String => "ROUTE_DEACTIVATE:" ++ a) ∘ (fun be : String × ℕ => be.1) := rfl
    rw [hf, ← List.map_map]
    have hknd5 : ((bes.take 5).map (fun be : String × ℕ => be.1)).Nodup :=
      ((List.take_sublist 5 bes).map _).nodup hknd
    refine List.Nodup.map_on ?_ hknd5
    intro a ha b hb he
    obtain ⟨bea, hbea, rfl⟩ := List.mem_map.mp ha
    obtain ⟨beb, hbeb, rfl⟩ := List.mem_map.mp hb
    have hacf : ':' ∉ bea.1.data := hkcf bea ((List.take_sublist 5 bes).subset hbea)
    have hbcf : ':' ∉ beb.1.data := hkcf beb ((List.take_sublist 5 bes).subset hbeb)
    have h1 := goSplit_gidDeact bea.1 hacf
    have h2 := goSplit_gidDeact beb.1 hbcf
    rw [he] at h1
    have := h1.symm.trans h2
    simpa using this

end TsSuggest

namespace TsSuggest

theorem flatMap_ids_nodup_keyed {g : Train → List Suggestion} (l : List Train)
    (hnd : (l.map Train.tId).Nodup)
    (h1 : ∀ t ∈ l, ((g t).map Suggestion.id).Nodup)
    (hkey : ∀ t ∈ l, ∀ x ∈ g t, (goSplit ':' x.id)[1]? = some t.tId) :
    ((l.flatMap g).map Suggestion.id).Nodup := by
  rw [List.map_flatMap]
  refine nodup_flatMap_ids l _ (fun t ht => h1 t ht) ?_
  have hp : l.Pairwise (fun a b => a.tId ≠ b.tId) := List.pairwise_map.mp hnd
  refine hp.imp_of_mem ?_
  intro a b ha hb hne i hia hib
  obtain ⟨xa, hxa, rfl⟩ := List.mem_map.mp hia
  obtain ⟨xb, hxb, hid⟩ := List.mem_map.mp hib
  have h1' := hkey a ha xa hxa
  have h2' := hkey b hb xb hxb
  rw [hid] at h2'
  rw [h1'] at h2'
  exact hne (Option.some.inj h2')

/-- The core of the amended claim C7: for a well-formed state and any
count-sorted slice whose keys are distinct and drawn from `blockedBy`,
the concatenated candidates are pairwise distinct in id, except that
two signal-override items may coincide. -/
theorem candidates_distinct (s : SimState) (bes : List (String × ℕ)) (wf : WFState s)
    (hknd : (bes.map (fun be => be.1)).Nodup)
    (hksrc : ∀ be ∈ bes, be.1 ∈ blockedKeys s) :
    DistinctIdsExceptOverride (candidatesWith s bes) := by
  classical
  obtain ⟨w1, w2, w3, w4, w5⟩ := wf
  have hkcf : ∀ be ∈ bes, ':' ∉ be.1.data := by
    intro be hbe
    obtain ⟨rp, hrp, hrid⟩ := blockedKeys_from s be.1 (hksrc be hbe)
    exact hrid ▸ w3 rp hrp
  -- split-form characterizations of the five blocks
  have hA : ∀ x ∈ s.trains.flatMap (departureForTrain s (currentUtilizationPercent s)),
      x.kind = .routeActivate ∧
      ∃ t ∈ s.trains, ∃ a, ':' ∉ a.data ∧
        goSplit ':' x.id = ["ROUTE_ACTIVATE", t.tId, a] := by
    intro x hx
    obtain ⟨t, ht, hxm⟩ := List.mem_flatMap.mp hx
    obtain ⟨hkind, sigId, r, hr, hid⟩ := mem_departureForTrain hxm
    exact ⟨hkind, t, ht, r.rId, routesFrom_colonFree w4 sigId r hr,
      by rw [hid]; exact goSplit_gidAct _ _ (w2 t ht) (routesFrom_colonFree w4 sigId r hr)⟩
  have hB : ∀ x ∈ s.trains.flatMap (predictiveForTrain s),
      x.kind = .routeActivate ∧
      ∃ t ∈ s.trains, ∃ a,
        goSplit ':' x.id = ["ROUTE_ACTIVATE", t.tId, a, "predictive"] := by
    intro x hx
    obtain ⟨t, ht, hxm⟩ := List.mem_flatMap.mp hx
    obtain ⟨hkind, sigId, r, hr, hid⟩ := mem_predictiveForTrain hxm
    exact ⟨hkind, t, ht, r.rId,
      by rw [hid]; exact goSplit_gidPred _ _ (w2 t ht) (routesFrom_colonFree w4 sigId r hr)⟩
  have hC : ∀ x ∈ s.trains.flatMap (proceedForTrain s (currentUtilizationPercent s)),
      x.kind = .trainProceedWithCaution ∧
      ∃ t ∈ s.trains, goSplit ':' x.id = ["TRAIN_PROCEED_WITH_CAUTION", t.tId] := by
    intro x hx
    obtain ⟨t, ht, hxm⟩ := List.mem_flatMap.mp hx
    obtain ⟨hkind, hid⟩ := mem_proceedForTrain hxm
    exact ⟨hkind, t, ht, by rw [hid]; exact goSplit_gidProceed _ (w2 t ht)⟩
  have hD : ∀ x ∈ deactCandidates s (currentUtilizationPercent s) bes,
      x.kind = .routeDeactivate ∧
      ∃ k, goSplit ':' x.id = ["ROUTE_DEACTIVATE", k] := by
    intro x hx
    obtain ⟨hkind, be, hbe, r, hlook, hid⟩ := mem_deactCandidates hx
    exact ⟨hkind, be.1, by rw [hid]; exact goSplit_gidDeact _ (hkcf be hbe)⟩
  have hE : ∀ x ∈ s.trains.flatMap (overrideForTrain s (currentUtilizationPercent s)),
      x.kind = .signalOverride ∧
      ∃ sg rest, goSplit ':' x.id = "SIGNAL_OVERRIDE" :: sg :: rest := by
    intro x hx
    obtain ⟨t, ht, hxm⟩ := List.mem_flatMap.mp hx
    obtain ⟨hkind, sig, asp, hsigmem, hid⟩ := mem_overrideForTrain hxm
    exact ⟨hkind, sig.tiId, goSplit ':' asp.name,
      by rw [hid]; exact goSplit_gidOverride _ _ (w5 sig hsigmem)⟩
  -- pairwise inside each block
  have pwA : (s.trains.flatMap (departureForTrain s (currentUtilizationPercent s))).Pairwise
      (fun a b => a.id ≠ b.id) := by
    rw [← List.pairwise_map (f := Suggestion.id)]
    exact (flatMap_ids_nodup_keyed s.trains w1
      (fun t ht => departure_ids_nodup s _ t w4 (w2 t ht))
      (fun t ht x hx => by
        obtain ⟨-, sigId, r, hr, hid⟩ := mem_departureForTrain hx
        rw [hid, goSplit_gidAct _ _ (w2 t ht) (routesFrom_colonFree w4 sigId r hr)]
        rfl))
  have pwB : (s.trains.flatMap (predictiveForTrain s)).Pairwise
      (fun a b => a.id ≠ b.id) := by
    rw [← List.pairwise_map (f := Suggestion.id)]
    exact (flatMap_ids_nodup_keyed s.trains w1
      (fun t _ => nodup_of_len_le_one (by
        rw [List.length_map]
        exact predictiveForTrain_len s t))
      (fun t ht x hx => by
        obtain ⟨-, sigId, r, hr, hid⟩ := mem_predictiveForTrain hx
        rw [hid, goSplit_gidPred _ _ (w2 t ht) (routesFrom_colonFree w4 sigId r hr)]
        rfl))
  have pwC : (s.trains.flatMap (proceedForTrain s (currentUtilizationPercent s))).Pairwise
      (fun a b => a.id ≠ b.id) := by
    rw [← List.pairwise_map (f := Suggestion.id)]
    exact (flatMap_ids_nodup_keyed s.trains w1
      (fun t _ => nodup_of_len_le_one (by
        rw [List.length_map]
        exact proceedForTrain_len s _ t))
      (fun t ht x hx => by
        obtain ⟨-, hid⟩ := mem_proceedForTrain hx
        rw [hid, goSplit_gidProceed _ (w2 t ht)]
        rfl))
  have pwD : (deactCandidates s (currentUtilizationPercent s) bes).Pairwise
      (fun a b => a.id ≠ b.id) := by
    rw [← List.pairwise_map (f := Suggestion.id)]
    exact deact_ids_nodup s _ bes hknd hkcf
  -- assemble
  unfold DistinctIdsExceptOverride candidatesWith
  have impP : ∀ {l : List Suggestion}, l.Pairwise (fun a b => a.id ≠ b.id) →
      l.Pairwise (fun a b => a.id ≠ b.id ∨ (a.kind = .signalOverride ∧ b.kind = .signalOverride)) :=
    fun h => h.imp Or.inl
  rw [List.pairwise_append, List.pairwise_append, List.pairwise_append, List.pairwise_append]
  refine ⟨⟨⟨⟨impP pwA, impP pwB, ?_⟩, impP pwC, ?_⟩, impP pwD, ?_⟩, ?_, ?_⟩
  · -- A vs B
    intro a haA b hbB
    obtain ⟨-, t, -, ra, -, hsa⟩ := hA a haA
    obtain ⟨-, t2, -, rb, hsb⟩ := hB b hbB
    exact Or.inl (id_ne_of_split_ne hsa hsb (by simp))
  · -- A ++ B vs C
    intro a haAB b hbC
    obtain ⟨-, t2, -, hsb⟩ := hC b hbC
    rcases List.mem_append.mp haAB with haA | haB
    · obtain ⟨-, t, -, ra, -, hsa⟩ := hA a haA
      exact Or.inl (id_ne_of_split_ne hsa hsb (by simp))
    · obtain ⟨-, t, -, ra, hsa⟩ := hB a haB
      exact Or.inl (id_ne_of_split_ne hsa hsb (by simp))
  · -- A ++ B ++ C vs D
    intro a haABC b hbD
    obtain ⟨-, k, hsb⟩ := hD b hbD
    rcases List.mem_append.mp haABC with haAB | haC
    · rcases List.mem_append.mp haAB with haA | haB
      · obtain ⟨-, t, -, ra, -, hsa⟩ := hA a haA
        exact Or.inl (id_ne_of_split_ne hsa hsb (by simp))
      · obtain ⟨-, t, -, ra, hsa⟩ := hB a haB
        exact Or.inl (id_ne_of_split_ne hsa hsb (by simp))
    · obtain ⟨-, t, -, hsa⟩ := hC a haC
      exact Or.inl (id_ne_of_split_ne hsa hsb (by simp))
  · -- E within: both overrides
    refine pairwise_of_mem ?_
    intro a haE b hbE
    exact Or.inr ⟨(hE a haE).1, (hE b hbE).1⟩
  · -- A ++ B ++ C ++ D vs E
    intro a haABCD b hbE
    obtain ⟨-, sg, rest, hsb⟩ := hE b hbE
    rcases List.mem_append.mp haABCD with haABC | haD
    · rcases List.mem_append.mp haABC with haAB | haC
      · rcases List.mem_append.mp haAB with haA | haB
        · obtain ⟨-, t, -, ra, -, hsa⟩ := hA a haA
          exact Or.inl (id_ne_of_split_ne hsa hsb (by simp))
        · obtain ⟨-, t, -, ra, hsa⟩ := hB a haB
          exact Or.inl (id_ne_of_split_ne hsa hsb (by simp))
      · obtain ⟨-, t, -, hsa⟩ := hC a haC
        exact Or.inl (id_ne_of_split_ne hsa hsb (by simp))
    · obtain ⟨-, k, hsa⟩ := hD a haD
      exact Or.inl (id_ne_of_split_ne hsa hsb (by simp))

end TsSuggest

namespace TsSuggest

/-- C7 (amended): in every snapshot produced by a recomputation of a
well-formed state, any two items either have different ids or are both
signal-override suggestions.  (Full distinctness fails: two zero-speed
trains facing the same signal yield signal-override items with equal
ids, see the counterexample.) -/
theorem C7_amended_distinct (s : SimState) (rej : List (String × ℤ)) (ord : List String)
    (snap : Suggestions) (wf : WFState s) (h : Recomputes s rej ord snap) :
    DistinctIdsExceptOverride snap.items := by
  obtain ⟨hord, bes, out, hbp, hbs, hop, hos, rfl⟩ := h
  have hord_nd : ord.Nodup := (hord.nodup_iff).mpr (blockedKeys_nodup s)
  have hbesOf_nd : ((besOf s ord).map (fun be => be.1)).Nodup :=
    (besOf_keys_sublist s ord).nodup hord_nd
  have hknd : (bes.map (fun be => be.1)).Nodup := ((hbp.map _).nodup_iff).mpr hbesOf_nd
  have hksrc : ∀ be ∈ bes, be.1 ∈ blockedKeys s := fun be hbe => besOf_mem_key (hbp.subset hbe)
  have hdist := candidates_distinct s bes wf hknd hksrc
  have hsym : ∀ {a b : Suggestion},
      (a.id ≠ b.id ∨ (a.kind = .signalOverride ∧ b.kind = .signalOverride)) →
      (b.id ≠ a.id ∨ (b.kind = .signalOverride ∧ a.kind = .signalOverride)) := by
    intro a b hab
    rcases hab with h1 | ⟨h1, h2⟩
    · exact Or.inl (Ne.symm h1)
    · exact Or.inr ⟨h2, h1⟩
  have hout : DistinctIdsExceptOverride out :=
    (List.Perm.pairwise_iff hsym hop).mpr hdist
  exact List.Pairwise.sublist ((List.filter_sublist _).trans (List.take_sublist _ _)) hout

/-- Witness for the amended C7 at a concrete recomputation. -/
theorem C7_amended_distinct_witness :
    DistinctIdsExceptOverride (Suggestions.mk [] 21600000000000).items :=
  C7_amended_distinct stateEmpty [] [] (Suggestions.mk [] 21600000000000)
    (by refine ⟨?_, ?_, ?_, ?_, ?_⟩ <;> simp [stateEmpty])
    ⟨List.Perm.refl _, [], [], List.Perm.refl _, List.Pairwise.nil, List.Perm.refl _,
      List.Pairwise.nil, rfl⟩

end TsSuggest


namespace TsSuggest

/-! ### Claims C9, C2, C10: the accept path. -/

/-- C9 (amended): accepting `SIGNAL_OVERRIDE:<signalId>:<aspectName>`
for an existing signal always succeeds with a manual-aspect host call;
only the name "DEFAULT" is compared case-insensitively (clearing the
override), other aspect names are resolved by exact (case-sensitive)
map lookup, and unresolved names fall back to the signal's lowest-speed
proceed aspect. -/
theorem C9_amended_override_resolution (e : EngineState) (sigId name : String)
    (hs : ':' ∉ sigId.data) (hn : ':' ∉ name.data) (ti : TrackItem)
    (hti : lookupItem e.sim sigId = some ti) (hsig : ti.ty = .signal) :
    acceptSuggestion e ("SIGNAL_OVERRIDE:" ++ sigId ++ ":" ++ name) =
      .call (.setManualAspect ti.tiId
        (if equalFold name ("DEFAULT") then none
         else
           match alookup e.sim.signalLibAspects name with
           | some a => some a
           | none => findProceedAspectPreferCaution ti)) := by
  have hsplit : goSplit ':' ("SIGNAL_OVERRIDE:" ++ sigId ++ ":" ++ name) =
      ["SIGNAL_OVERRIDE", sigId, name] := by
    rw [goSplit_gidOverride _ _ hs, goSplit_cf _ hn]
  unfold acceptSuggestion
  rw [hsplit]
  simp only [List.getElem?_cons_zero, List.getElem?_cons_succ, List.length_cons,
    List.length_nil, hti, hsig]
  norm_num
  rw [if_neg (by decide), if_neg (by decide), if_neg (by decide)]
  cases hdef : equalFold name ("DEFAULT") with
  | true => simp [hdef]
  | false =>
    simp only [hdef, Bool.false_eq_true, if_false]
    cases halook : alookup e.sim.signalLibAspects name <;> simp [halook]

/-- Witness for the amended C9, clearing the override of the concrete
signal via the case-insensitive DEFAULT name. -/
theorem C9_amended_override_resolution_witness :
    acceptSuggestion engAcc ("SIGNAL_OVERRIDE:" ++ "SIG" ++ ":" ++ "default") =
      .call (.setManualAspect accItemSIG.tiId
        (if equalFold ("default") ("DEFAULT") then none
         else
           match alookup engAcc.sim.signalLibAspects ("default") with
           | some a => some a
           | none => findProceedAspectPreferCaution accItemSIG)) :=
  C9_amended_override_resolution engAcc ("SIG") ("default") (by decide) (by decide)
    accItemSIG (by decide) (by decide)

/-- C9 counterexample: the aspect library of scenario ACC contains an
aspect whose name case-insensitively equals "CLEAR", yet accepting
`SIGNAL_OVERRIDE:SIG:CLEAR` installs the fallback cautious aspect, not
that aspect: resolution is case-sensitive, contradicting the claim's
case-insensitive reading (formalized by `resolveAspectClaimed`). -/
theorem C9_counterexample :
    (∃ p ∈ stateAcc.signalLibAspects, equalFold p.1 ("CLEAR") = true) ∧
    acceptSuggestion engAcc ("SIGNAL_OVERRIDE:SIG:CLEAR") =
      .call (.setManualAspect ("SIG") (some aspCautionMixed)) ∧
    resolveAspectClaimed stateAcc accItemSIG ("CLEAR") = some aspClearMixed ∧
    (some aspCautionMixed : Option SignalAspect) ≠ some aspClearMixed := by
  refine ⟨⟨("Clear", aspClearMixed), ?_, ?_⟩, ?_, ?_, ?_⟩ <;> decide

end TsSuggest

namespace TsSuggest

end TsSuggest

namespace TsSuggest

/-- C10: the accept path never consults the snapshot, the rejection map,
or the last-computed timestamp — `Accept` on two engines with the same
simulation state but arbitrary differing rejection/snapshot bookkeeping
gives identical outcomes — and for every well-formed id whose referenced
objects exist it issues the corresponding host mutation: route
activation/deactivation for an existing route, proceed-with-caution for
an in-range train index, and a manual-aspect change for an existing
signal item. -/
theorem C10_accept_path_independent :
    (∀ sim rej rej' lca lca' snap snap' id,
       acceptSuggestion ⟨sim, rej, lca, snap⟩ id =
         acceptSuggestion ⟨sim, rej', lca', snap'⟩ id) ∧
    (∀ e id rest rid rte, goSplit ':' id = "ROUTE_ACTIVATE" :: rest →
       rest[1]? = some rid → lookupRoute e.sim rid = some rte →
       acceptSuggestion e id = .call (.activateRoute rte.rId false)) ∧
    (∀ e id rest rid rte, goSplit ':' id = "ROUTE_DEACTIVATE" :: rest →
       rest[0]? = some rid → lookupRoute e.sim rid = some rte →
       acceptSuggestion e id = .call (.deactivateRoute rte.rId)) ∧
    (∀ e id rest ts, goSplit ':' id = "TRAIN_PROCEED_WITH_CAUTION" :: rest →
       rest[0]? = some ts → 0 ≤ mustAtoi ts → mustAtoi ts < (e.sim.trains.length : ℤ) →
       acceptSuggestion e id = .call (.proceedWithCaution (mustAtoi ts).toNat)) ∧
    (∀ e id rest sid asp ti, goSplit ':' id = "SIGNAL_OVERRIDE" :: rest →
       rest[0]? = some sid → rest[1]? = some asp → lookupItem e.sim sid = some ti →
       ti.ty = .signal →
       ∃ a, acceptSuggestion e id = .call (.setManualAspect ti.tiId a)) := by
  refine ⟨?_, ?_, ?_, ?_, ?_⟩
  · intro sim rej rej' lca lca' snap snap' id
    rfl
  · intro e id rest rid rte hsplit hget hlook
    unfold acceptSuggestion
    rw [hsplit]
    have hlen2 : 1 < rest.length := by
      by_contra hc
      push_neg at hc
      rw [List.getElem?_eq_none hc] at hget
      exact Option.noConfusion hget
    have hlt : ¬ rest.length + 1 < 3 := by omega
    simp [hlt, hget, hlook]
  · intro e id rest rid rte hsplit hget hlook
    unfold acceptSuggestion
    rw [hsplit]
    have hlen2 : 0 < rest.length := by
      by_contra hc
      push_neg at hc
      rw [List.getElem?_eq_none hc] at hget
      exact Option.noConfusion hget
    have hlt : ¬ rest.length + 1 < 2 := by omega
    simp [hlt, hget, hlook]
  · intro e id rest ts hsplit hget h0 hlen
    unfold acceptSuggestion
    rw [hsplit]
    have hlen2 : 0 < rest.length := by
      by_contra hc
      push_neg at hc
      rw [List.getElem?_eq_none hc] at hget
      exact Option.noConfusion hget
    have hlt : ¬ rest.length + 1 < 2 := by omega
    have hok : ¬ (mustAtoi ts < 0 ∨ (e.sim.trains.length : ℤ) ≤ mustAtoi ts) := by
      push_neg
      exact ⟨by omega, by omega⟩
    simp [hlt, hget, hok]
  · intro e id rest sid asp ti hsplit hget0 hget1 hti hty
    unfold acceptSuggestion
    rw [hsplit]
    have hlen2 : 1 < rest.length := by
      by_contra hc
      push_neg at hc
      rw [List.getElem?_eq_none hc] at hget1
      exact Option.noConfusion hget1
    have hlt : ¬ rest.length + 1 < 3 := by omega
    simp only [List.length_cons, hlt, if_false, List.getElem?_cons_succ,
      List.getElem?_cons_zero, hget0, hget1, hti, hty, if_neg]
    rw [if_neg (by decide), if_neg (by decide), if_neg (by decide), if_pos trivial,
      if_neg (by decide)]
    by_cases hdef : equalFold asp ("DEFAULT") = true
    · rw [if_pos hdef]
      exact ⟨none, rfl⟩
    · rw [if_neg hdef]
      cases halo : alookup e.sim.signalLibAspects asp with
      | some a => exact ⟨some a, rfl⟩
      | none => exact ⟨_, rfl⟩

/-- Witness for C10: an engine whose rejection map suppresses the very id
being accepted, with stale bookkeeping, still performs the route
activation. -/
theorem C10_accept_path_independent_witness :
    acceptSuggestion ⟨stateAcc, [("ROUTE_ACTIVATE:T:RP1", 99)], some 7, none⟩
      ("ROUTE_ACTIVATE:T:RP1") = .call (.activateRoute "RP1" false) :=
  C10_accept_path_independent.2.1 ⟨stateAcc, [("ROUTE_ACTIVATE:T:RP1", 99)], some 7, none⟩
    ("ROUTE_ACTIVATE:T:RP1") ["T", "RP1"] "RP1" ordRouteRP1
    (by decide) (by decide) (by decide)

end TsSuggest

namespace TsSuggest

/-- An empty rejection map filters nothing. -/
theorem filterRejected_nil (now : ℤ) (items : List Suggestion) :
    filterRejected [] now items = items := by
  simp [filterRejected, alookup]

set_option maxRecDepth 100000 in
/-- C7 counterexample: in scenario DUP two trains wait at the same red
signal, so one recomputation emits two `TRAIN_PROCEED_WITH_CAUTION` items
(distinct ids) and two `SIGNAL_OVERRIDE` items whose ids are both
`SIGNAL_OVERRIDE:SIG:UK_CAUTION`: the snapshot's ids are not pairwise
distinct, refuting the claim that ids are unique within a snapshot. -/
theorem C7_counterexample :
    ∃ snap, Recomputes stateDup [] [] snap ∧ ¬ (snap.items.map Suggestion.id).Nodup := by
  have hutil : currentUtilizationPercent stateDup = 50 := by
    norm_num [currentUtilizationPercent, stateDup, dupItemH1, dupItemH2, dupItemSIG, dupItemEX]
  have hso1 : (overrideSugg 50 dupTrainA dupItemSIG aspCaution).score = 7 := by
    norm_num [overrideSugg]
  have hso2 : (overrideSugg 50 dupTrainB dupItemSIG aspCaution).score = 7 := by
    norm_num [overrideSugg]
  have hsp1 : (proceedSugg stateDup 50 dupTrainA dupItemSIG).score = 5 := by
    norm_num [proceedSugg, proceedBonus, dupTrainA]
  have hsp2 : (proceedSugg stateDup 50 dupTrainB dupItemSIG).score = 5 := by
    norm_num [proceedSugg, proceedBonus, dupTrainB]
  have hcand : candidatesWith stateDup [] =
      [proceedSugg stateDup 50 dupTrainA dupItemSIG,
       proceedSugg stateDup 50 dupTrainB dupItemSIG,
       overrideSugg 50 dupTrainA dupItemSIG aspCaution,
       overrideSugg 50 dupTrainB dupItemSIG aspCaution] := by
    unfold candidatesWith
    rw [hutil]
    rfl
  refine ⟨⟨[overrideSugg 50 dupTrainA dupItemSIG aspCaution,
            overrideSugg 50 dupTrainB dupItemSIG aspCaution,
            proceedSugg stateDup 50 dupTrainA dupItemSIG,
            proceedSugg stateDup 50 dupTrainB dupItemSIG], 21600000000000⟩,
    ⟨List.Perm.nil, [],
     [overrideSugg 50 dupTrainA dupItemSIG aspCaution,
      overrideSugg 50 dupTrainB dupItemSIG aspCaution,
      proceedSugg stateDup 50 dupTrainA dupItemSIG,
      proceedSugg stateDup 50 dupTrainB dupItemSIG],
     List.Perm.nil, List.Pairwise.nil, ?_, ?_, ?_⟩, ?_⟩
  · rw [hcand]
    exact @List.perm_append_comm _ [_, _] [_, _]
  · show ScoresSorted _
    unfold ScoresSorted
    simp only [List.pairwise_cons, List.mem_cons, List.not_mem_nil, or_false]
    refine ⟨fun b hb => ?_, fun b hb => ?_, fun b hb => ?_, ?_⟩
    · rcases hb with rfl | rfl | rfl
      · rw [hso2, hso1]
      · rw [hsp1, hso1]; norm_num
      · rw [hsp2, hso1]; norm_num
    · rcases hb with rfl | rfl
      · rw [hsp1, hso2]; norm_num
      · rw [hsp2, hso2]; norm_num
    · rcases hb with rfl
      · rw [hsp2, hsp1]
    · simp
  · rw [filterRejected_nil]
    rfl
  · decide

end TsSuggest

namespace TsSuggest

/-- A Go map store followed by a lookup of the same key yields the
stored value (`assocInsert` either overwrites every binding of the key
or appends a fresh one). -/
theorem alookup_assocInsert_self (l : List (String × ℤ)) (k : String) (v : ℤ) :
    alookup (assocInsert l k v) k = some v := by
  unfold assocInsert
  split
  case isTrue h =>
    induction l with
    | nil => simp at h
    | cons p l ih =>
      simp only [List.map_cons, alookup, List.find?]
      by_cases hp : p.1 == k
      · simp [hp]
      · simp only [hp, if_neg, Bool.false_eq_true, if_false]
        have hany : l.any (fun q => q.1 == k) = true := by
          rcases List.any_eq_true.mp h with ⟨q, hq, hqk⟩
          rcases List.mem_cons.mp hq with heq | hq'
          · subst heq
            exact absurd hqk (by simpa using hp)
          · exact List.any_eq_true.mpr ⟨q, hq', hqk⟩
        simpa [alookup] using ih hany
  case isFalse h =>
    induction l with
    | nil => simp [alookup]
    | cons p l ih =>
      simp only [List.cons_append, alookup, List.find?]
      have hp : (p.1 == k) = false := by
        by_contra hc
        simp only [Bool.not_eq_false] at hc
        exact h (List.any_eq_true.mpr ⟨p, List.mem_cons_self _ _, hc⟩)
      rw [hp]
      have h' : ¬ l.any (fun q => q.1 == k) = true := by
        intro hc
        rcases List.any_eq_true.mp hc with ⟨q, hq, hqk⟩
        exact h (List.any_eq_true.mpr ⟨q, List.mem_cons_of_mem _ hq, hqk⟩)
      simpa [alookup] using ih h'

/-- C5: after `Reject(id, m)` with `m > 0` at simulation time `t0`, the
id is absent from the items of every snapshot a recomputation produces
while `generatedAt < t0 + m` minutes, and once the clock reaches
`t0 + m` minutes the rejection filter no longer suppresses candidates
bearing that id. -/
theorem C5_rejection_window (s : SimState) (rej0 : List (String × ℤ)) (id : String)
    (m : ℤ) (hm : 0 < m) (t0 : ℤ) (ord : List String) (snap : Suggestions)
    (hrec : Recomputes s (rejectUpdate rej0 id m t0) ord snap) :
    (snap.generatedAt < t0 + m * nsMinute → ∀ it ∈ snap.items, it.id ≠ id) ∧
    (∀ now items, t0 + m * nsMinute ≤ now → ∀ it ∈ items, it.id = id →
       it ∈ filterRejected (rejectUpdate rej0 id m t0) now items) := by
  have hlook : alookup (rejectUpdate rej0 id m t0) id = some (t0 + m * nsMinute) := by
    unfold rejectUpdate
    rw [if_neg (by omega)]
    exact alookup_assocInsert_self rej0 id (t0 + m * nsMinute)
  constructor
  · intro hb it hit hid
    obtain ⟨hperm, bes, out, h1, h2, h3, h4, hsnap⟩ := hrec
    subst hsnap
    simp only at hb hit
    rcases List.mem_filter.mp hit with ⟨hmem, hpred⟩
    rw [hid, hlook] at hpred
    replace hpred : (!decide (s.options.currentTime < t0 + m * nsMinute)) = true := hpred
    simp only [Bool.not_eq_true', decide_eq_false_iff_not, not_lt] at hpred
    omega
  · intro now items hle it hit hid
    refine List.mem_filter.mpr ⟨hit, ?_⟩
    rw [hid, hlook]
    simp only [Bool.not_eq_true', decide_eq_false_iff_not, not_lt]
    omega

/-- Witness for C5: a concrete proceed suggestion whose id was rejected
for one minute passes the filter one minute later. -/
theorem C5_rejection_window_witness :
    proceedSugg stateDup 50 dupTrainA dupItemSIG ∈
      filterRejected (rejectUpdate [] ("TRAIN_PROCEED_WITH_CAUTION:0") 1 21599000000000)
        21660000000000 [proceedSugg stateDup 50 dupTrainA dupItemSIG] :=
  (C5_rejection_window stateEmpty [] ("TRAIN_PROCEED_WITH_CAUTION:0") 1 (by decide)
      21599000000000 [] ⟨[], 21600000000000⟩
      ⟨List.Perm.nil, [], [], List.Perm.nil, List.Pairwise.nil, List.Perm.nil,
        List.Pairwise.nil, rfl⟩).2
    21660000000000 [proceedSugg stateDup 50 dupTrainA dupItemSIG] (by decide)
    (proceedSugg stateDup 50 dupTrainA dupItemSIG) (List.mem_cons_self _ _) (by decide)

end TsSuggest

namespace TsSuggest

/-! ### Claims C3 and C4: predictive scoring and the ETA estimate. -/

set_option maxRecDepth 10000 in
/-- Scenario PRED (configured maximum ETA 120 s, actual ETA 90 s) emits
exactly one predictive suggestion, of score 12. -/
theorem pred_emits : predictiveForTrain statePred predTrain = [predSug12] := by
  have hdist : distanceToSignal statePred predTrain "SP" = 360 := by
    norm_num [distanceToSignal, distWalk, statePred, predTrain, lookupItem,
      predItemHP, predItemLP, predItemSP, predItemLQ, List.find?]
    decide
  have heta : estimateTimeToReach predTrain (360 : ℚ) = 90000000000 := by
    norm_num [estimateTimeToReach, predTrain, durOfSeconds, ratTruncZ, nsSecond]
  have hds : durSeconds 90000000000 = 90 := by norm_num [durSeconds, nsSecond]
  have hf : fmtF0 (90 : ℚ) = "90" := by
    norm_num [fmtF0]
    decide
  unfold predictiveForTrain
  rw [if_neg (by decide)]
  show (if (if statePred.options.suggestPredictiveMaxDistanceM ≤ 0 then (1000 : ℚ)
            else statePred.options.suggestPredictiveMaxDistanceM) <
           distanceToSignal statePred predTrain "SP" then ([] : List Suggestion)
        else _) = _
  rw [hdist, if_neg (by norm_num [statePred, optsEta120])]
  rw [heta, if_neg (by norm_num [statePred, optsEta120, nsSecond])]
  show [predictiveSugg predTrain "SP" 90000000000 predRouteRQ] = [predSug12]
  unfold predictiveSugg predSug12
  rw [hds, hf]
  norm_num [Suggestion.mk.injEq]
  constructor
  · decide
  · decide

set_option maxRecDepth 10000 in
/-- The default-options predictive scenario (ETA 20 s) emits exactly one
suggestion, of score 19. -/
theorem predD_emits : predictiveForTrain statePredD predTrainD = [predSug19] := by
  have hdist : distanceToSignal statePredD predTrainD "SP" = 400 := by
    norm_num [distanceToSignal, distWalk, statePredD, predTrainD, lookupItem,
      predItemHP, predItemLPd, predItemSP, predItemLQ, List.find?]
    decide
  have heta : estimateTimeToReach predTrainD (400 : ℚ) = 20000000000 := by
    norm_num [estimateTimeToReach, predTrainD, durOfSeconds, ratTruncZ, nsSecond]
  have hds : durSeconds 20000000000 = 20 := by norm_num [durSeconds, nsSecond]
  have hf : fmtF0 (20 : ℚ) = "20" := by
    norm_num [fmtF0]
    decide
  unfold predictiveForTrain
  rw [if_neg (by decide)]
  show (if (if statePredD.options.suggestPredictiveMaxDistanceM ≤ 0 then (1000 : ℚ)
            else statePredD.options.suggestPredictiveMaxDistanceM) <
           distanceToSignal statePredD predTrainD "SP" then ([] : List Suggestion)
        else _) = _
  rw [hdist, if_neg (by norm_num [statePredD, optsBase])]
  rw [heta, if_neg (by norm_num [statePredD, optsBase, nsSecond])]
  show [predictiveSugg predTrainD "SP" 20000000000 predRouteRQ] = [predSug19]
  unfold predictiveSugg predSug19
  rw [hds, hf]
  norm_num [Suggestion.mk.injEq]
  constructor
  · decide
  · decide

/-- C3 (amended): every predictive suggestion's score is
15 + (60 − etaSeconds)/10 with the constant 60, regardless of the
configured `SuggestPredictiveMaxETASeconds`. -/
theorem C3_amended_predictive_score {s : SimState} {t : Train} {x : Suggestion}
    (hx : x ∈ predictiveForTrain s t) :
    ∃ sigId, t.nextSignalId = some sigId ∧
      x.score = 15 + (60 - durSeconds (estimateTimeToReach t (distanceToSignal s t sigId))) / 10 := by
  unfold predictiveForTrain at hx
  repeat' split at hx
  all_goals try exact absurd hx (List.not_mem_nil x)
  all_goals obtain rfl := List.mem_singleton.mp hx
  all_goals exact ⟨_, by assumption, rfl⟩

/-- Witness for the amended C3 at the default-options scenario: the
emitted suggestion's score is 15 + (60 − 20)/10 = 19. -/
theorem C3_amended_predictive_score_witness :
    ∃ sigId, predTrainD.nextSignalId = some sigId ∧
      predSug19.score = 15 + (60 - durSeconds (estimateTimeToReach predTrainD
        (distanceToSignal statePredD predTrainD sigId))) / 10 :=
  @C3_amended_predictive_score statePredD predTrainD predSug19
    (by rw [predD_emits]; exact List.mem_singleton.mpr rfl)

/-- C3 counterexample: with `SuggestPredictiveMaxETASeconds = 120` and an
estimated time-to-signal of 90 s, the emitted predictive suggestion has
score 12 = 15 + (60 − 90)/10, not the claimed 15 + (120 − 90)/10 = 18:
the score formula hardcodes 60 and ignores the configured maximum ETA. -/
theorem C3_counterexample :
    statePred.options.suggestPredictiveMaxETASeconds = 120 ∧
    durSeconds (estimateTimeToReach predTrain (distanceToSignal statePred predTrain "SP")) = 90 ∧
    predictiveForTrain statePred predTrain = [predSug12] ∧
    predSug12.score = 12 ∧
    (12 : ℚ) ≠ 15 + ((120 : ℚ) - 90) / 10 := by
  have hdist : distanceToSignal statePred predTrain "SP" = 360 := by
    norm_num [distanceToSignal, distWalk, statePred, predTrain, lookupItem,
      predItemHP, predItemLP, predItemSP, predItemLQ, List.find?]
    decide
  have heta : estimateTimeToReach predTrain (360 : ℚ) = 90000000000 := by
    norm_num [estimateTimeToReach, predTrain, durOfSeconds, ratTruncZ, nsSecond]
  refine ⟨rfl, ?_, pred_emits, rfl, by norm_num⟩
  rw [hdist, heta]
  norm_num [durSeconds, nsSecond]

/-- C4 (amended): `estimateTimeToReach` returns one hour whenever the
speed is non-positive; otherwise it divides the distance by the average
of the current speed and a strictly lower braking target, substituting
0.5 m/s only when that average itself is non-positive (the clamp is not
a lower bound of 0.5 m/s). -/
theorem C4_amended_eta : ∀ (t : Train) (d : ℚ),
    estimateTimeToReach t d = estimateETA_amended t d := fun _ _ => rfl

/-- C4 counterexample: a train rolling at 0.2 m/s with no lower braking
target gets its ETA from dividing by 0.2 (5 s for one metre), while the
claimed clamp to at least 0.5 m/s would give 2 s. -/
theorem C4_counterexample :
    estimateTimeToReach slowTrain 1 = 5000000000 ∧
    estimateETA_claimed slowTrain 1 = 2000000000 ∧
    (5000000000 : ℤ) ≠ 2000000000 := by
  refine ⟨?_, ?_, by decide⟩
  · show estimateTimeToReach slowTrain 1 = 5000000000
    unfold estimateTimeToReach
    norm_num [slowTrain, durOfSeconds, ratTruncZ, nsSecond, nsHour]
  · show estimateETA_claimed slowTrain 1 = 2000000000
    unfold estimateETA_claimed
    norm_num [slowTrain, durOfSeconds, ratTruncZ, nsSecond, nsHour]

end TsSuggest

namespace TsSuggest

/-! ### Claim C1: determinism of a recomputation. -/

/-- Inserting into the count-sorted list permutes the cons. -/
theorem insertByCount_perm (x : String × ℕ) (l : List (String × ℕ)) :
    (insertByCount x l).Perm (x :: l) := by
  induction l with
  | nil => exact List.Perm.refl _
  | cons y l ih =>
    unfold insertByCount
    split
    · exact List.Perm.refl _
    · exact (ih.cons y).trans (List.Perm.swap x y l)

/-- The reference sort permutes its input. -/
theorem sortByCount_perm (l : List (String × ℕ)) : (sortByCount l).Perm l := by
  induction l with
  | nil => exact List.Perm.refl _
  | cons x l ih =>
    show (insertByCount x (l.foldr insertByCount [])).Perm (x :: l)
    exact (insertByCount_perm x _).trans (ih.cons x)

/-- Insertion preserves the count-descending order. -/
theorem insertByCount_sorted (x : String × ℕ) (l : List (String × ℕ))
    (h : CountsSorted l) : CountsSorted (insertByCount x l) := by
  induction l with
  | nil => simp [insertByCount, CountsSorted]
  | cons y l ih =>
    unfold insertByCount
    split
    case isTrue hy =>
      refine List.pairwise_cons.mpr ⟨?_, h⟩
      intro z hz
      rcases List.mem_cons.mp hz with rfl | hz'
      · exact hy
      · exact le_trans ((List.pairwise_cons.mp h).1 z hz') hy
    case isFalse hy =>
      refine List.pairwise_cons.mpr ⟨?_, ih (List.pairwise_cons.mp h).2⟩
      intro z hz
      have hz' := (insertByCount_perm x l).subset hz
      rcases List.mem_cons.mp hz' with rfl | hzl
      · exact le_of_not_le hy
      · exact (List.pairwise_cons.mp h).1 z hzl

/-- The reference sort is count-descending. -/
theorem sortByCount_sorted (l : List (String × ℕ)) : CountsSorted (sortByCount l) := by
  induction l with
  | nil => exact List.Pairwise.nil
  | cons x l ih =>
    show CountsSorted (insertByCount x (l.foldr insertByCount []))
    exact insertByCount_sorted x _ ih

/-- C1 (amended): a recomputation is deterministic when the `blockedBy`
counts are pairwise distinct and the candidate scores (at the canonical
count-sorted `bes` slice) are pairwise distinct — then any two
executions, whatever key order Go's map iteration and whatever
tie-breaking the unstable sorts choose, produce identical snapshots. -/
theorem C1_amended_determinism (s : SimState) (rej : List (String × ℤ))
    (ord₁ ord₂ : List String) (snap₁ snap₂ : Suggestions)
    (h1 : Recomputes s rej ord₁ snap₁) (h2 : Recomputes s rej ord₂ snap₂)
    (hcounts : (((besCanon s)).map Prod.snd).Nodup)
    (hscores : ((candidatesWith s (besCanon s)).map Suggestion.score).Nodup) :
    snap₁ = snap₂ := by
  obtain ⟨hp1, bes1, out1, hb1, hs1, ho1, hss1, hsn1⟩ := h1
  obtain ⟨hp2, bes2, out2, hb2, hs2, ho2, hss2, hsn2⟩ := h2
  have hbes1 : bes1.Perm (besCanon s) :=
    (hb1.trans (hp1.filterMap _)).trans (sortByCount_perm _).symm
  have hbes2 : bes2.Perm (besCanon s) :=
    (hb2.trans (hp2.filterMap _)).trans (sortByCount_perm _).symm
  have hbeq1 : bes1 = besCanon s :=
    sorted_perm_unique Prod.snd hbes1 hs1 (sortByCount_sorted _)
      ((hbes1.map Prod.snd).nodup_iff.mpr hcounts)
  have hbeq2 : bes2 = besCanon s :=
    sorted_perm_unique Prod.snd hbes2 hs2 (sortByCount_sorted _)
      ((hbes2.map Prod.snd).nodup_iff.mpr hcounts)
  subst hbeq1
  subst hbeq2
  have hout : out1 = out2 := by
    have h12 : out1.Perm out2 := ho1.trans ho2.symm
    refine sorted_perm_unique Suggestion.score h12 hss1 hss2 ?_
    exact ((ho1.map Suggestion.score).nodup_iff.mpr hscores)
  subst hout
  rw [hsn1, hsn2]

set_option maxRecDepth 10000 in
/-- C1 counterexample: in scenario ORD two persistent routes each block
one ready departure (equal counts, equal scores 11), and two executions
that enumerate the `blockedBy` keys in opposite orders produce snapshots
with the two deactivation items in opposite orders: recomputation is not
deterministic. -/
theorem C1_counterexample :
    Recomputes stateOrd [] ["RP1", "RP2"]
      ⟨[ordSugD1, ordSugD2], 21600000000000⟩ ∧
    Recomputes stateOrd [] ["RP2", "RP1"]
      ⟨[ordSugD2, ordSugD1], 21600000000000⟩ ∧
    (⟨[ordSugD1, ordSugD2], 21600000000000⟩ : Suggestions) ≠
      ⟨[ordSugD2, ordSugD1], 21600000000000⟩ := by
  have hutil : currentUtilizationPercent stateOrd = 100/3 := by
    norm_num [currentUtilizationPercent, stateOrd, ordItemHA, ordItemHB, ordItemLA,
      ordItemLB, ordItemSGA, ordItemSGB]
  have hd1 : deactSugg (100/3) ordRouteRP1 1 = ordSugD1 := by
    unfold deactSugg ordSugD1
    simp only [Suggestion.mk.injEq]
    refine ⟨by decide, by decide, by decide, by decide, ?_, by decide⟩
    rw [if_neg (by norm_num)]
    norm_num
  have hd2 : deactSugg (100/3) ordRouteRP2 1 = ordSugD2 := by
    unfold deactSugg ordSugD2
    simp only [Suggestion.mk.injEq]
    refine ⟨by decide, by decide, by decide, by decide, ?_, by decide⟩
    rw [if_neg (by norm_num)]
    norm_num
  have hc1 : candidatesWith stateOrd [("RP1", 1), ("RP2", 1)] = [ordSugD1, ordSugD2] := by
    unfold candidatesWith
    rw [hutil]
    rw [show deactCandidates stateOrd (100/3) [("RP1", 1), ("RP2", 1)] =
      [deactSugg (100/3) ordRouteRP1 1, deactSugg (100/3) ordRouteRP2 1] from rfl]
    rw [hd1, hd2]
    rfl
  have hc2 : candidatesWith stateOrd [("RP2", 1), ("RP1", 1)] = [ordSugD2, ordSugD1] := by
    unfold candidatesWith
    rw [hutil]
    rw [show deactCandidates stateOrd (100/3) [("RP2", 1), ("RP1", 1)] =
      [deactSugg (100/3) ordRouteRP2 1, deactSugg (100/3) ordRouteRP1 1] from rfl]
    rw [hd2, hd1]
    rfl
  refine ⟨⟨by decide, [("RP1", 1), ("RP2", 1)], [ordSugD1, ordSugD2],
      by decide, by simp [CountsSorted], ?_, ?_, ?_⟩,
    ⟨by decide, [("RP2", 1), ("RP1", 1)], [ordSugD2, ordSugD1],
      by decide, by simp [CountsSorted], ?_, ?_, ?_⟩, by decide⟩
  · rw [hc1]
  · simp [ScoresSorted, List.pairwise_cons, ordSugD1, ordSugD2]
  · rw [filterRejected_nil]
    rfl
  · rw [hc2]
  · simp [ScoresSorted, List.pairwise_cons, ordSugD1, ordSugD2]
  · rw [filterRejected_nil]
    rfl

/-- Witness for the amended C1: on the empty state both executions
produce the empty snapshot. -/
theorem C1_amended_determinism_witness :
    (⟨[], 21600000000000⟩ : Suggestions) = ⟨[], 21600000000000⟩ :=
  C1_amended_determinism stateEmpty [] [] [] ⟨[], 21600000000000⟩ ⟨[], 21600000000000⟩
    ⟨List.Perm.nil, [], [], List.Perm.nil, List.Pairwise.nil, List.Perm.nil,
      List.Pairwise.nil, rfl⟩
    ⟨List.Perm.nil, [], [], List.Perm.nil, List.Pairwise.nil, List.Perm.nil,
      List.Pairwise.nil, rfl⟩
    (by decide) (by decide)

end TsSuggest
